import Mathlib

/-!
Verification development for the experiment and allocation engine of the
`neuro` marketing-automation application.

The definitions below are a shallow embedding of the two engine modules
`neuro_ads/ai/ab_testing.py` (class `ABTestEngine`) and
`neuro_ads/ai/budget_optimizer.py` (class `BudgetOptimizer`), together with
the small pieces of `neuro_ads/models.py` they depend on.  Python floats and
decimals are embedded as `ℚ` (exact real-valued arithmetic); Python lists and
dicts become Lean lists and functions; database rows become plain structures.
The two external numeric routines the engine calls — `scipy.stats.norm.cdf`
and `math.sqrt` — are not part of the repository, so they are passed in as
explicit function parameters (`Phi` and `sqrtQ`); every theorem states the
properties of those parameters it needs, and witnesses instantiate them with
concrete functions.
-/

namespace Neuro

/-! ## Engine configuration constants

Mirrors `ABTestEngine.__init__` (ab_testing.py lines 21-26) and
`BudgetOptimizer.__init__` (budget_optimizer.py lines 19-23). -/

/-- `self.min_sample_size = 100` (default minimum sample size per variant). -/
def min_sample_size : ℕ := 100

/-- `self.max_test_duration_days = 14`. -/
def max_test_duration_days : ℕ := 14

/-- `self.significance_threshold = 0.05`. -/
def significance_threshold : ℚ := 5/100

/-- `self.minimum_effect_size = 0.1`. -/
def minimum_effect_size : ℚ := 1/10

/-- `self.early_stopping_threshold = 0.01`. -/
def early_stopping_threshold : ℚ := 1/100

/-- `self.min_budget_change_threshold = 0.05` of `BudgetOptimizer`. -/
def min_budget_change_threshold : ℚ := 5/100

/-- `self.max_budget_change_per_day = 0.20` of `BudgetOptimizer`. -/
def max_budget_change_per_day : ℚ := 20/100

/-- `self.confidence_threshold = 0.7` of `BudgetOptimizer`. -/
def confidence_threshold : ℚ := 7/10

/-! ## Two-proportion z-test (`ABTestEngine._two_proportion_z_test`, lines 267-312) -/

/-- Result dictionary of `_two_proportion_z_test`.  Only the keys consumed by
the callers (`p_value`, `effect_size`, `winner`, `confidence_interval`) are
kept; the degenerate early returns do not carry a `confidence_interval` key,
which is modelled by `Option`. -/
structure ZTestResult where
  p_value : ℚ
  effect_size : ℚ
  winner : String
  ci : Option (ℚ × ℚ)
deriving DecidableEq

/-- The radicand of the pooled standard error: the argument passed to
`math.sqrt` on line 280, with `p_pool` from line 277.  Named separately so
theorems can speak about the `se == 0` guard of line 282. -/
def pooled_se_radicand (successes_a trials_a successes_b trials_b : ℕ) : ℚ :=
  let p_pool : ℚ := ((successes_a : ℚ) + (successes_b : ℚ)) / ((trials_a : ℚ) + (trials_b : ℚ))
  p_pool * (1 - p_pool) * (1 / (trials_a : ℚ) + 1 / (trials_b : ℚ))

/-- Shallow embedding of `_two_proportion_z_test`.  `Phi` models
`scipy.stats.norm.cdf` and `sqrtQ` models `math.sqrt` (both external to the
repository).  The guards, arithmetic, winner choice and effect size follow
lines 270-312 of ab_testing.py; `1.96` is the literal from line 299. -/
def two_proportion_z_test (Phi sqrtQ : ℚ → ℚ)
    (successes_a trials_a successes_b trials_b : ℕ) : ZTestResult :=
  if trials_a = 0 ∨ trials_b = 0 then
    { p_value := 1, effect_size := 0, winner := "inconclusive", ci := none }
  else if sqrtQ (pooled_se_radicand successes_a trials_a successes_b trials_b) = 0 then
    { p_value := 1, effect_size := 0, winner := "inconclusive", ci := none }
  else
    let p_a : ℚ := (successes_a : ℚ) / (trials_a : ℚ)
    let p_b : ℚ := (successes_b : ℚ) / (trials_b : ℚ)
    let se : ℚ := sqrtQ (pooled_se_radicand successes_a trials_a successes_b trials_b)
    let z_score : ℚ := (p_a - p_b) / se
    let se_diff : ℚ := sqrtQ (p_a * (1 - p_a) / (trials_a : ℚ) + p_b * (1 - p_b) / (trials_b : ℚ))
    let margin_error : ℚ := 196/100 * se_diff
    { p_value := 2 * (1 - Phi |z_score|)
      effect_size := if 0 < p_b then |p_a - p_b| / p_b else 0
      winner := if p_b < p_a then "A" else if p_a < p_b then "B" else "tie"
      ci := some (p_a - p_b - margin_error, p_a - p_b + margin_error) }

/-! ## Stop decision (`ABTestEngine._should_stop_test`, lines 364-418) -/

/-- The two fields of a pairwise-test dictionary that `_should_stop_test`
reads (`test['p_value']` and `test['effect_size']`). -/
structure StopTestInfo where
  p_value : ℚ
  effect_size : ℚ
deriving DecidableEq

/-- Shallow embedding of `_should_stop_test` for a test whose `started_at` is
set (every running test has been stamped on launch), so that
`days_running = (now - started_at).days` is a fixed natural number for the
whole call.  `sample_sizes` is the list `variant_results.values()` restricted
to the `sample_size` key (total impressions per variant), and `tests` is
`statistical_results['statistical_tests']`.  The branch structure, thresholds
and reason strings follow lines 368-418 verbatim. -/
def should_stop_test (days_running minimum_sample_size test_duration_days : ℕ)
    (sample_sizes : List ℕ) (tests : List StopTestInfo) : Bool × String :=
  if days_running < 3 then
    (false, "Test running less than minimum duration")
  else if max_test_duration_days ≤ days_running then
    (true, "Maximum test duration reached")
  else if ¬ (sample_sizes.all fun s => decide (minimum_sample_size ≤ s)) then
    (false, "Minimum sample size not reached")
  else if tests.any fun t =>
      decide (t.p_value < early_stopping_threshold) && decide (minimum_effect_size < t.effect_size) then
    (true, "Early stopping - very significant result")
  else if (tests.any fun t =>
      decide (t.p_value < significance_threshold) && decide (minimum_effect_size < t.effect_size))
      && decide (5 ≤ days_running) then
    (true, "Statistically significant result")
  else if test_duration_days ≤ days_running then
    (true, "Planned test duration completed")
  else
    (false, "Continue test")

/-! ## Test data collection (`ABTestEngine._get_test_data`, lines 122-171) -/

/-- One `CampaignAnalytics` row of the test's campaign.  Dates are embedded as
day numbers. -/
structure AnalyticsRow where
  date : ℕ
  impressions : ℕ
  clicks : ℕ
  conversions : ℕ
  spend : ℚ
deriving DecidableEq

/-- An `AdCreative` as seen by the analysis pipeline.  `variantTag` is the
number appearing in the creative's generated name
`f"{ab_test.name} - Variant {i+1}"` (line 530), which is all that
`_get_variant_type` (lines 568-579) inspects via its substring matches. -/
structure Creative where
  id : ℕ
  variantTag : ℕ
deriving DecidableEq

/-- Embedding of `_get_variant_type` (lines 568-579): the name is matched
against `Variant 1` / `Variant 2` / `Variant 3`, defaulting to `A`. -/
def get_variant_type (tag : ℕ) : String :=
  if tag = 1 then "A"
  else if tag = 2 then "B"
  else if tag = 3 then "C"
  else "A"

/-- The analytics queryset of lines 138-142 filters only on the campaign and
the date window, never on the loop's creative, so the aggregate of lines
145-150 is one fixed campaign-wide sum.  These four functions are that
aggregate (`Sum('impressions')`, `Sum('clicks')`, `Sum('conversions')`,
`Sum('spend')`) over the rows of the window. -/
def agg_impressions (rows : List AnalyticsRow) (start_d end_d : ℕ) : ℕ :=
  ((rows.filter fun r => decide (start_d ≤ r.date) && decide (r.date ≤ end_d)).map
    AnalyticsRow.impressions).sum

/-- Campaign-wide window aggregate of clicks; see `agg_impressions`. -/
def agg_clicks (rows : List AnalyticsRow) (start_d end_d : ℕ) : ℕ :=
  ((rows.filter fun r => decide (start_d ≤ r.date) && decide (r.date ≤ end_d)).map
    AnalyticsRow.clicks).sum

/-- Campaign-wide window aggregate of conversions; see `agg_impressions`. -/
def agg_conversions (rows : List AnalyticsRow) (start_d end_d : ℕ) : ℕ :=
  ((rows.filter fun r => decide (start_d ≤ r.date) && decide (r.date ≤ end_d)).map
    AnalyticsRow.conversions).sum

/-- Campaign-wide window aggregate of spend; see `agg_impressions`. -/
def agg_spend (rows : List AnalyticsRow) (start_d end_d : ℕ) : ℚ :=
  ((rows.filter fun r => decide (start_d ≤ r.date) && decide (r.date ≤ end_d)).map
    AnalyticsRow.spend).sum

/-- One entry of the list built by `_get_test_data` (lines 157-169).  The
derived per-entry ratios (`ctr`, `conversion_rate`, `cpc`, `cpa`, lines
165-168) are omitted because no downstream consumer reads them —
`_perform_statistical_analysis` recomputes everything from the raw sums. -/
structure TestDataEntry where
  creative_id : ℕ
  variant_type : String
  impressions : ℕ
  clicks : ℕ
  conversions : ℕ
  spend : ℚ
deriving DecidableEq

/-- Embedding of `_get_test_data` for a test whose `started_at` is set: one
entry per test creative, each carrying the same campaign-wide aggregate of
the window `[started_at date, today]` (the query of lines 138-142 does not
depend on the creative). -/
def get_test_data (creatives : List Creative) (rows : List AnalyticsRow)
    (start_d end_d : ℕ) : List TestDataEntry :=
  creatives.map fun c =>
    { creative_id := c.id
      variant_type := get_variant_type c.variantTag
      impressions := agg_impressions rows start_d end_d
      clicks := agg_clicks rows start_d end_d
      conversions := agg_conversions rows start_d end_d
      spend := agg_spend rows start_d end_d }

/-! ## Per-variant aggregation (`_perform_statistical_analysis`, lines 173-219) -/

/-- Total impressions of the entries grouped under one variant label
(lines 180-191). -/
def variant_impressions (td : List TestDataEntry) (label : String) : ℕ :=
  ((td.filter fun d => decide (d.variant_type = label)).map TestDataEntry.impressions).sum

/-- Total clicks of the entries grouped under one variant label (line 192). -/
def variant_clicks (td : List TestDataEntry) (label : String) : ℕ :=
  ((td.filter fun d => decide (d.variant_type = label)).map TestDataEntry.clicks).sum

/-- Total conversions of the entries grouped under one variant label
(line 193). -/
def variant_conversions (td : List TestDataEntry) (label : String) : ℕ :=
  ((td.filter fun d => decide (d.variant_type = label)).map TestDataEntry.conversions).sum

/-- Total spend of the entries grouped under one variant label (line 194). -/
def variant_spend (td : List TestDataEntry) (label : String) : ℚ :=
  ((td.filter fun d => decide (d.variant_type = label)).map TestDataEntry.spend).sum

/-- The per-variant sums that `_perform_pairwise_tests` reads from
`variant_results` (lines 196-206; the ratio fields are recomputed there from
these sums and never consumed by the pairwise tests). -/
structure VariantStats where
  impressions : ℕ
  clicks : ℕ
  conversions : ℕ
  spend : ℚ
deriving DecidableEq

/-- The `variant_results` entry for one label, as built on lines 190-206. -/
def variant_stats (td : List TestDataEntry) (label : String) : VariantStats :=
  { impressions := variant_impressions td label
    clicks := variant_clicks td label
    conversions := variant_conversions td label
    spend := variant_spend td label }

/-! ## Pairwise tests (`_perform_pairwise_tests`, lines 221-265) -/

/-- Embedding of the metric selection of lines 228-233. -/
def primary_metric (test_type : String) : String :=
  if test_type = "headline" ∨ test_type = "description" ∨ test_type = "cta" then "ctr"
  else if test_type = "creative" then "conversion_rate"
  else "ctr"

/-- `primary_metric` only ever produces `ctr` or `conversion_rate`, so the
`_welch_t_test` branch of line 252 is unreachable from
`_perform_pairwise_tests` for every `test_type`. -/
theorem primary_metric_cases (test_type : String) :
    primary_metric test_type = "ctr" ∨ primary_metric test_type = "conversion_rate" := by
  unfold primary_metric
  split
  · exact Or.inl rfl
  · split
    · exact Or.inr rfl
    · exact Or.inl rfl

/-- Embedding of one iteration of the pair loop of lines 236-263: the metric
label together with the statistical result appended for the pair.  Because
`primary_metric` always lands in `['ctr', 'conversion_rate']`
(`primary_metric_cases`), the branch of lines 245-249 always runs and the
z-test is invoked on `data['clicks']` and `data['impressions']` of the two
variants — for both metric labels. -/
def pairwise_test (Phi sqrtQ : ℚ → ℚ) (test_type : String)
    (a b : VariantStats) : String × ZTestResult :=
  (primary_metric test_type,
    two_proportion_z_test Phi sqrtQ a.clicks a.impressions b.clicks b.impressions)

/-- The pairwise test between two variant labels of collected test data:
`_perform_statistical_analysis` grouping composed with `pairwise_test`. -/
def pairwise_label_test (Phi sqrtQ : ℚ → ℚ) (test_type : String)
    (td : List TestDataEntry) (la lb : String) : String × ZTestResult :=
  pairwise_test Phi sqrtQ test_type (variant_stats td la) (variant_stats td lb)

/-! ## Opportunity detection (`BudgetOptimizer._identify_optimization_opportunities`,
budget_optimizer.py lines 204-257) -/

/-- The `'type'` key of an opportunity dictionary. -/
inductive OppType where
  | increase_budget
  | decrease_budget
deriving DecidableEq

/-- An opportunity dictionary as built on lines 222-252.  `fraction` is the
`suggested_increase` key for increase opportunities and the
`suggested_decrease` key for decrease opportunities (each dictionary carries
exactly one of the two). -/
structure Opportunity where
  otype : OppType
  ad_set_id : ℕ
  current_budget : ℚ
  confidence : ℚ
  fraction : ℚ
deriving DecidableEq

/-- One entry of `metrics['ad_sets']` as read by opportunity detection: the
fields `performance_score`, `spend_utilization` and `allocated_budget`
attached by `_calculate_performance_metrics` (lines 144-147). -/
structure ScoredAdSet where
  id : ℕ
  performance_score : ℚ
  spend_utilization : ℚ
  allocated_budget : ℚ
deriving DecidableEq

/-- The low-performer list of line 217 (`performance_score < 0.8`). -/
def low_performers (ad_sets : List ScoredAdSet) : List ScoredAdSet :=
  ad_sets.filter fun a => decide (a.performance_score < 8/10)

/-- The increase opportunities of the high-performer loop (lines 214 and
222-230). -/
def increase_opps (ad_sets : List ScoredAdSet) : List Opportunity :=
  (ad_sets.filter fun a =>
      decide (12/10 < a.performance_score) && decide (8/10 < a.spend_utilization)).map fun a =>
    { otype := OppType.increase_budget
      ad_set_id := a.id
      current_budget := a.allocated_budget
      confidence := min (a.performance_score / (15/10)) 1
      fraction := min (2/10) (a.performance_score - 1) }

/-- The decrease opportunities of the low-performer loop (lines 232-241),
restricted to ad sets that are actually spending (utilization above 0.3). -/
def decrease_low_opps (ad_sets : List ScoredAdSet) : List Opportunity :=
  ((low_performers ad_sets).filter fun a => decide (3/10 < a.spend_utilization)).map fun a =>
    { otype := OppType.decrease_budget
      ad_set_id := a.id
      current_budget := a.allocated_budget
      confidence := min (1 - a.performance_score) 1
      fraction := min (3/10) (1 - a.performance_score) }

/-- The decrease opportunities of the underutilization loop (lines 220 and
243-252): utilization below 0.6, skipping any entry already present in the
low-performer list (the no-double-penalty membership test of line 244). -/
def decrease_under_opps (ad_sets : List ScoredAdSet) : List Opportunity :=
  (((ad_sets.filter fun a => decide (a.spend_utilization < 6/10)).filter
      fun a => !(decide (a ∈ low_performers ad_sets))).map fun a =>
    { otype := OppType.decrease_budget
      ad_set_id := a.id
      current_budget := a.allocated_budget
      confidence := 1 - a.spend_utilization
      fraction := min (4/10) (1 - a.spend_utilization) })

/-- The opportunity list of lines 207-252 before the confidence filter of
line 255: high performers first, then underperforming decreases, then
underutilization decreases. -/
def raw_opportunities (ad_sets : List ScoredAdSet) : List Opportunity :=
  if ad_sets.length < 2 then []
  else increase_opps ad_sets ++ decrease_low_opps ad_sets ++ decrease_under_opps ad_sets

/-- Embedding of `_identify_optimization_opportunities`: the raw list of
lines 207-252 filtered by the confidence threshold of line 255. -/
def identify_optimization_opportunities (ad_sets : List ScoredAdSet) : List Opportunity :=
  (raw_opportunities ad_sets).filter fun o => decide (confidence_threshold ≤ o.confidence)

/-! ## Budget allocation (`BudgetOptimizer._calculate_optimal_allocation`,
lines 259-303) -/

/-- One iteration of the decrease loop of lines 272-282: the accumulator is
the pair (`new_allocation`, `budget_to_redistribute`). -/
def dec_step (acc : (ℕ → ℚ) × ℚ) (opp : Opportunity) : (ℕ → ℚ) × ℚ :=
  if opp.otype = OppType.decrease_budget then
    let current := acc.1 opp.ad_set_id
    let d := min (current * opp.fraction) (current * max_budget_change_per_day)
    (fun j => if j = opp.ad_set_id then current - d else acc.1 j, acc.2 + d)
  else acc

/-- The decrease pass of lines 269-282, starting from the current allocation
and an empty redistribution pool. -/
def apply_decreases (opps : List Opportunity) (alloc : ℕ → ℚ) : (ℕ → ℚ) × ℚ :=
  opps.foldl dec_step (alloc, 0)

/-- One iteration of the increase loop of lines 290-301, for a fixed pool and
fixed total performance weight `W` (computed once on line 288). -/
def inc_step (pool W : ℚ) (a : ℕ → ℚ) (opp : Opportunity) : ℕ → ℚ :=
  if 0 < W then
    let w := opp.confidence * opp.fraction / W
    let amt := pool * w
    let current := a opp.ad_set_id
    let inc := min amt (current * max_budget_change_per_day)
    fun j => if j = opp.ad_set_id then current + inc else a j
  else a

/-- The increase pass of lines 284-301: run only when there is at least one
increase opportunity and a strictly positive pool (line 287); the total
performance weight of line 288 is fixed before the loop. -/
def apply_increases (opps : List Opportunity) (alloc : ℕ → ℚ) (pool : ℚ) : ℕ → ℚ :=
  if (opps.filter fun o => decide (o.otype = OppType.increase_budget)) ≠ [] ∧ 0 < pool then
    (opps.filter fun o => decide (o.otype = OppType.increase_budget)).foldl
      (inc_step pool
        (((opps.filter fun o => decide (o.otype = OppType.increase_budget)).map
          fun o => o.confidence * o.fraction).sum))
      alloc
  else alloc

/-- Embedding of `_calculate_optimal_allocation`: `alloc` is the dictionary of
line 266 mapping each ad set id to its `allocated_budget`; decreases run
first, then the freed pool is distributed over the increase opportunities. -/
def calculate_optimal_allocation (opps : List Opportunity) (alloc : ℕ → ℚ) : ℕ → ℚ :=
  apply_increases opps (apply_decreases opps alloc).1 (apply_decreases opps alloc).2

/-! ## Apply gate (`_should_apply_changes` lines 305-325 and
`_apply_budget_optimization` lines 327-378) -/

/-- An `AdSet` row as read by the apply path: primary key and
`allocated_budget`. -/
structure AdSetRec where
  id : ℕ
  allocated_budget : ℚ
deriving DecidableEq

/-- The proposed budget of one ad set: `new_allocation.get(id, current)`
(lines 314 and 337). -/
def proposed_budget (newAlloc : ℕ → Option ℚ) (a : AdSetRec) : ℚ :=
  (newAlloc a.id).getD a.allocated_budget

/-- Embedding of `_should_apply_changes`: sum the absolute changes and the
current budgets over the campaign's ad sets and compare the ratio against the
5% threshold; a campaign with zero total budget is never applied
(lines 309-325). -/
def should_apply_changes (adSets : List AdSetRec) (newAlloc : ℕ → Option ℚ) : Bool :=
  let total_change := (adSets.map fun a => |proposed_budget newAlloc a - a.allocated_budget|).sum
  let total_budget := (adSets.map fun a => a.allocated_budget).sum
  if 0 < total_budget then
    decide (min_budget_change_threshold ≤ total_change / total_budget)
  else false

/-- Outcome of the write loop of lines 335-350: either the loop runs to
completion, yielding the final budget table and the ids whose changes were
appended to `changes_made`, or the `change_percentage` division of line 349
raises `ZeroDivisionError` on a zero previous budget, leaving the budgets
written so far — the crashing ad set's included, since its `save()` on
line 341 precedes the division — with the remaining ad sets untouched. -/
inductive LoopResult where
  | ok (written : List AdSetRec) (changes : List ℕ)
  | err (written : List AdSetRec)
deriving DecidableEq

/-- Whether the write loop of lines 335-350 ran to completion without
raising. -/
def LoopResult.isOk : LoopResult → Bool
  | LoopResult.ok _ _ => true
  | LoopResult.err _ => false

/-- The write loop of `_apply_budget_optimization` (lines 335-350), one ad
set at a time in table order.  An ad set is rewritten when its change clears
the per-ad-set 5% relative threshold of line 339 — vacuously true when the
previous budget is 0, since the bound is then `0 ≤ |new_budget|` — after
which line 349 divides the change by the previous budget: for a zero
previous budget this raises, aborting the loop after the write. -/
def apply_loop (newAlloc : ℕ → Option ℚ) : List AdSetRec → LoopResult
  | [] => LoopResult.ok [] []
  | a :: rest =>
    if a.allocated_budget * min_budget_change_threshold ≤
        |proposed_budget newAlloc a - a.allocated_budget| then
      if a.allocated_budget = 0 then
        LoopResult.err ({ id := a.id, allocated_budget := proposed_budget newAlloc a } :: rest)
      else
        match apply_loop newAlloc rest with
        | LoopResult.ok written changes =>
          LoopResult.ok
            ({ id := a.id, allocated_budget := proposed_budget newAlloc a } :: written)
            (a.id :: changes)
        | LoopResult.err written =>
          LoopResult.err ({ id := a.id, allocated_budget := proposed_budget newAlloc a } :: written)
    else
      match apply_loop newAlloc rest with
      | LoopResult.ok written changes => LoopResult.ok (a :: written) changes
      | LoopResult.err written => LoopResult.err (a :: written)

/-- Outcome of the apply path, capturing the persisted effects: the
`success` flag of the returned dictionary, the `allocated_budget` column of
every ad set after the call, the number of `BudgetOptimization` records
created, and the ids listed in `changes_made`. -/
structure ApplyOutcome where
  success : Bool
  finalBudgets : List AdSetRec
  recordsCreated : ℕ
  changesMade : List ℕ
deriving DecidableEq

/-- Embedding of `_apply_budget_optimization` (lines 327-378): when the
write loop completes, exactly one `BudgetOptimization` record is created
(lines 358-365) and the success result lists the changes; when the loop
raises, the handler of lines 376-378 returns a failure result — no record is
created, but the budgets already written persist. -/
def apply_budget_optimization (adSets : List AdSetRec) (newAlloc : ℕ → Option ℚ) : ApplyOutcome :=
  match apply_loop newAlloc adSets with
  | LoopResult.ok written changes =>
    { success := true, finalBudgets := written, recordsCreated := 1, changesMade := changes }
  | LoopResult.err written =>
    { success := false, finalBudgets := written, recordsCreated := 0, changesMade := [] }

/-- The validate-and-apply step of `optimize_campaign_budgets`
(lines 51-55): apply when the gate passes, otherwise return the
below-threshold result with no mutation and no record. -/
def optimize_apply_gate (adSets : List AdSetRec) (newAlloc : ℕ → Option ℚ) : ApplyOutcome :=
  if should_apply_changes adSets newAlloc then
    apply_budget_optimization adSets newAlloc
  else
    { success := false, finalBudgets := adSets, recordsCreated := 0, changesMade := [] }

/-! ## Test configuration validation (`ABTestEngine._validate_test_config`,
ab_testing.py lines 499-514) and the model's declared test types
(`ABTest.TEST_TYPE_CHOICES`, models.py lines 207-213) -/

/-- The five test types declared on the `ABTest` model
(models.py lines 207-213). -/
def TEST_TYPE_CHOICES : List String :=
  ["headline", "description", "cta", "creative", "audience"]

/-- A `test_config` dictionary as inspected by `_validate_test_config`: the
two required keys, each possibly absent.  Variant dictionaries are embedded
as their content only insofar as the engine counts them, so a variant is an
opaque token. -/
structure TestConfig where
  test_type : Option String
  variants : Option (List String)
deriving DecidableEq

/-- The dictionary returned by `_validate_test_config`. -/
structure ValidationResult where
  valid : Bool
  error : Option String
deriving DecidableEq

/-- Embedding of `_validate_test_config` (lines 499-514): required keys are
checked in order, then the test type is checked against the literal
four-element list of line 508, then the variant count. -/
def validate_test_config (cfg : TestConfig) : ValidationResult :=
  match cfg.test_type with
  | none => { valid := false, error := some "Missing required field: test_type" }
  | some tt =>
    match cfg.variants with
    | none => { valid := false, error := some "Missing required field: variants" }
    | some vs =>
      if ¬ (tt = "headline" ∨ tt = "description" ∨ tt = "cta" ∨ tt = "creative") then
        { valid := false, error := some "Invalid test type" }
      else if vs.length < 2 then
        { valid := false, error := some "Need at least 2 variants for A/B test" }
      else
        { valid := true, error := none }

/-! ## Test creation (`ABTestEngine.create_automated_ab_test`, lines 66-120,
and `_create_test_variants`, lines 516-543) -/

/-- An `ABTest` row as touched by the creation path: primary key and
status. -/
structure DBTest where
  id : ℕ
  status : String
deriving DecidableEq

/-- An `AdCreative` row as touched by the creation path: primary key and
`is_active` flag (variants are created with `is_active=True`, line 539). -/
structure DBCreative where
  id : ℕ
  is_active : Bool
deriving DecidableEq

/-- The persisted state the creation path reads and writes. -/
structure DBState where
  tests : List DBTest
  creatives : List DBCreative
deriving DecidableEq

/-- Embedding of `create_automated_ab_test`.  `has_ad_set` models whether
`campaign.adset_set.first()` exists (line 522; absence raises `ValueError`,
caught by the outer handler, line 118) and `launch_ok` models the success
flag of `_launch_test` (line 103).  `newTestId` is the id given to the
created `ABTest` row and `baseCreativeId + i` the id of the i-th created
variant creative.  Returns the new persisted state and the `success` flag of
the result dictionary.  On launch failure only `ab_test.delete()` runs
(line 115): the test row is removed and the creatives stay. -/
def create_automated_ab_test (cfg : TestConfig) (has_ad_set launch_ok : Bool)
    (newTestId baseCreativeId : ℕ) (s : DBState) : DBState × Bool :=
  if (validate_test_config cfg).valid = false then (s, false)
  else
    let s1 : DBState := { s with tests := s.tests ++ [{ id := newTestId, status := "draft" }] }
    if has_ad_set = false then (s1, false)
    else
      let numVariants := (cfg.variants.getD []).length
      let newCreatives := (List.range numVariants).map fun i =>
        ({ id := baseCreativeId + i, is_active := true } : DBCreative)
      let s2 : DBState := { s1 with creatives := s1.creatives ++ newCreatives }
      if launch_ok then
        ({ s2 with tests := s.tests ++ [{ id := newTestId, status := "running" }] }, true)
      else
        ({ s2 with tests := s2.tests.filter fun t => decide (¬ t.id = newTestId) }, false)

/-! ## Analysis entry gate (`ABTestEngine.run_ab_test_analysis`, lines 28-64) -/

/-- Embedding of the status gate of lines 36-37: for a test whose status is
not in `['running']` the function returns the failure dictionary immediately,
leaving the test row untouched — modelled as `some (false, t)`; for a running
test it proceeds into the analysis body — modelled as `none`. -/
def run_ab_test_analysis_gate (t : DBTest) : Option (Bool × DBTest) :=
  if t.status = "running" then none else some (false, t)

/-! ## General helper lemmas -/

/-- A predicate counted once on a list identifies its satisfying member
uniquely. -/
theorem eq_of_countP_eq_one {α : Type} {l : List α} {p : α → Bool} (h : l.countP p = 1)
    {a b : α} (ha : a ∈ l) (hb : b ∈ l) (hpa : p a = true) (hpb : p b = true) : a = b := by
  rw [List.countP_eq_length_filter] at h
  obtain ⟨x, hx⟩ := List.length_eq_one.mp h
  have h1 : a ∈ l.filter p := List.mem_filter.mpr ⟨ha, hpa⟩
  have h2 : b ∈ l.filter p := List.mem_filter.mpr ⟨hb, hpb⟩
  rw [hx, List.mem_singleton] at h1 h2
  rw [h1, h2]

/-- Summing a function that is constant on a list multiplies the constant by
the length. -/
theorem sum_map_const_nat {α : Type} (l : List α) (f : α → ℕ) (c : ℕ)
    (h : ∀ x ∈ l, f x = c) : (l.map f).sum = l.length * c := by
  induction l with
  | nil => simp
  | cons x xs ih =>
    simp only [List.map_cons, List.sum_cons, List.length_cons]
    rw [h x (List.mem_cons_self x xs), ih fun y hy => h y (List.mem_cons_of_mem x hy)]
    ring

/-- The two opportunity types are distinct (used to reduce branch tests in
concrete evaluations). -/
theorem oppType_dec_ne_inc : OppType.decrease_budget ≠ OppType.increase_budget := by decide

/-- Symmetric form of `oppType_dec_ne_inc`. -/
theorem oppType_inc_ne_dec : OppType.increase_budget ≠ OppType.decrease_budget := by decide

/-- Fields of the two-proportion test on two identical count pairs: p-value
is 1 whenever `Phi 0 = 1/2`, effect size is 0, the winner is never `A` or
`B`, and is exactly `tie` in the non-degenerate case. -/
theorem z_test_same_inputs (Phi sqrtQ : ℚ → ℚ) (s t : ℕ) (hPhi : Phi 0 = 1/2) :
    (two_proportion_z_test Phi sqrtQ s t s t).p_value = 1 ∧
    (two_proportion_z_test Phi sqrtQ s t s t).effect_size = 0 ∧
    (two_proportion_z_test Phi sqrtQ s t s t).winner ≠ "A" ∧
    (two_proportion_z_test Phi sqrtQ s t s t).winner ≠ "B" ∧
    (t ≠ 0 → sqrtQ (pooled_se_radicand s t s t) ≠ 0 →
      (two_proportion_z_test Phi sqrtQ s t s t).winner = "tie") := by
  unfold two_proportion_z_test
  by_cases h0 : t = 0 ∨ t = 0
  · rw [if_pos h0]
    exact ⟨rfl, rfl, by decide, by decide, fun ht _ => absurd (h0.elim id id) ht⟩
  · rw [if_neg h0]
    by_cases hse : sqrtQ (pooled_se_radicand s t s t) = 0
    · rw [if_pos hse]
      exact ⟨rfl, rfl, by decide, by decide, fun _ hne => absurd hse hne⟩
    · rw [if_neg hse]
      refine ⟨?_, ?_, ?_, ?_, fun _ _ => ?_⟩ <;>
        simp [sub_self, zero_div, abs_zero, hPhi, lt_irrefl]
      norm_num

/-! ## Claim C5 -/

/-- C5: for all non-negative integer inputs, if either trials count is zero,
or the pooled standard error `sqrt(p_pool*(1-p_pool)*(1/trials_a+1/trials_b))`
is zero, the two-proportion test returns exactly p_value 1.0, effect_size 0
and winner `inconclusive`, regardless of the successes, of `Phi` and of
`sqrtQ` elsewhere; the embedding is total, reflecting that the guarded code
path never raises. -/
theorem C5_degenerate_z_test (Phi sqrtQ : ℚ → ℚ) (sa ta sb tb : ℕ)
    (h : ta = 0 ∨ tb = 0 ∨ sqrtQ (pooled_se_radicand sa ta sb tb) = 0) :
    two_proportion_z_test Phi sqrtQ sa ta sb tb =
      { p_value := 1, effect_size := 0, winner := "inconclusive", ci := none } := by
  unfold two_proportion_z_test
  rcases h with h | h | h
  · rw [if_pos (Or.inl h)]
  · rw [if_pos (Or.inr h)]
  · by_cases h0 : ta = 0 ∨ tb = 0
    · rw [if_pos h0]
    · rw [if_neg h0, if_pos h]

/-- Witness for C5 at a concrete degenerate input. -/
theorem C5_degenerate_z_test_witness :
    two_proportion_z_test id id 7 0 3 50 =
      { p_value := 1, effect_size := 0, winner := "inconclusive", ci := none } :=
  C5_degenerate_z_test id id 7 0 3 50 (Or.inl rfl)

/-! ## Claim C9 -/

/-- C9 counterexample: a test in status `draft` is rejected by the status
gate of `run_ab_test_analysis` (lines 36-37 admit only `running`), returning
the failure result with the test untouched — contradicting the claim that
draft is an accepted analysis state. -/
theorem C9_counterexample :
    run_ab_test_analysis_gate { id := 1, status := "draft" } =
      some (false, { id := 1, status := "draft" }) := by decide

/-- C9 (amended): `running` is the only status from which an analysis
request proceeds; every other status — `draft` included, along with the
terminal `completed` and `cancelled` — gets a failure result back and the
test row is left unchanged. -/
theorem C9_analysis_gate (t : DBTest) :
    (t.status ≠ "running" → run_ab_test_analysis_gate t = some (false, t)) ∧
    (t.status = "running" → run_ab_test_analysis_gate t = none) := by
  refine ⟨fun h => ?_, fun h => ?_⟩
  · unfold run_ab_test_analysis_gate
    rw [if_neg h]
  · unfold run_ab_test_analysis_gate
    rw [if_pos h]

/-- Witness for C9 at a completed test. -/
theorem C9_analysis_gate_witness :
    run_ab_test_analysis_gate { id := 7, status := "completed" } =
      some (false, { id := 7, status := "completed" }) :=
  (C9_analysis_gate { id := 7, status := "completed" }).1 (by decide)

/-! ## Claim C10 -/

/-- C10 counterexample: `audience` is one of the five test types declared on
the `ABTest` model, yet `_validate_test_config` rejects a configuration with
test_type `audience` and two variants with the `Invalid test type` error, so
such a test is never created — contradicting the claim that all five
declared types are accepted. -/
theorem C10_counterexample :
    "audience" ∈ TEST_TYPE_CHOICES ∧
    validate_test_config { test_type := some "audience", variants := some ["a", "b"] } =
      { valid := false, error := some "Invalid test type" } := by
  exact ⟨by decide, by decide⟩

/-- C10 (amended): validation accepts a configuration exactly when both
required keys are present, the test type is one of the four literals of
line 508 — `headline`, `description`, `cta`, `creative`; `audience` is
rejected even though the model declares it — and at least two variants are
supplied.  Rejection produces an error and no test is created. -/
theorem C10_validate_config (cfg : TestConfig) :
    (validate_test_config cfg).valid = true ↔
      (∃ tt, cfg.test_type = some tt ∧
        (tt = "headline" ∨ tt = "description" ∨ tt = "cta" ∨ tt = "creative")) ∧
      (∃ vs, cfg.variants = some vs ∧ 2 ≤ vs.length) := by
  obtain ⟨tt, vs⟩ := cfg
  cases tt with
  | none =>
    simp only [validate_test_config]
    constructor
    · intro h
      exact absurd h (by decide)
    · rintro ⟨⟨t2, ht2, _⟩, -⟩
      exact Option.noConfusion ht2
  | some t =>
    cases vs with
    | none =>
      simp only [validate_test_config]
      constructor
      · intro h
        exact absurd h (by decide)
      · rintro ⟨-, ⟨vs2, hvs2, -⟩⟩
        exact Option.noConfusion hvs2
    | some v =>
      by_cases hty : t = "headline" ∨ t = "description" ∨ t = "cta" ∨ t = "creative"
      · by_cases hlen : v.length < 2
        · simp only [validate_test_config, if_neg (not_not_intro hty), if_pos hlen]
          constructor
          · intro h
            exact absurd h (by decide)
          · rintro ⟨-, ⟨vs2, hvs2, hlen2⟩⟩
            cases Option.some.inj hvs2
            omega
        · simp only [validate_test_config, if_neg (not_not_intro hty), if_neg hlen]
          constructor
          · intro _
            exact ⟨⟨t, rfl, hty⟩, ⟨v, rfl, by omega⟩⟩
          · intro _
            trivial
      · simp only [validate_test_config, if_pos hty]
        constructor
        · intro h
          exact absurd h (by decide)
        · rintro ⟨⟨t2, ht2, hty2⟩, -⟩
          cases Option.some.inj ht2
          exact absurd hty2 hty

/-! ## Claim C6 -/

/-- C6: evaluation of the code at the failing input.  For a `creative` test
the pair loop labels the metric `conversion_rate`, but it feeds the z-test
the variants' clicks and impressions (lines 245-249): two variants with
identical clicks and impressions yet very different conversions come out as
a tie, whereas the two-proportion test on the conversion-rate data
(conversions as successes, clicks as trials — what the claim and the metric
label promise) separates them with winner `B`. -/
theorem C6_creative_metric_bug :
    (pairwise_test (fun _ => 1/2) id "creative"
        { impressions := 1000, clicks := 50, conversions := 10, spend := 0 }
        { impressions := 1000, clicks := 50, conversions := 40, spend := 0 }).1
      = "conversion_rate" ∧
    (pairwise_test (fun _ => 1/2) id "creative"
        { impressions := 1000, clicks := 50, conversions := 10, spend := 0 }
        { impressions := 1000, clicks := 50, conversions := 40, spend := 0 }).2
      = two_proportion_z_test (fun _ => 1/2) id 50 1000 50 1000 ∧
    (pairwise_test (fun _ => 1/2) id "creative"
        { impressions := 1000, clicks := 50, conversions := 10, spend := 0 }
        { impressions := 1000, clicks := 50, conversions := 40, spend := 0 }).2.winner
      = "tie" ∧
    (two_proportion_z_test (fun _ => 1/2) id 10 50 40 50).winner = "B" := by
  refine ⟨rfl, rfl, ?_, ?_⟩ <;>
    norm_num [pairwise_test, primary_metric, two_proportion_z_test, pooled_se_radicand]

/-! ## Claim C8 -/

/-- C8 counterexample: with a valid two-variant configuration and a failing
launch, `create_automated_ab_test` deletes the `ABTest` row (line 115) but
leaves both materialized variant creatives persisted and active — the
claimed deletion of every `AdCreative` variant does not happen. -/
theorem C8_counterexample :
    (create_automated_ab_test
        { test_type := some "headline", variants := some ["v1", "v2"] }
        true false 1 10 { tests := [], creatives := [] }).1.creatives =
      [{ id := 10, is_active := true }, { id := 11, is_active := true }] ∧
    (create_automated_ab_test
        { test_type := some "headline", variants := some ["v1", "v2"] }
        true false 1 10 { tests := [], creatives := [] }).1.tests = [] := by
  exact ⟨by decide, by decide⟩

/-- C8 (amended): when the launch step fails after a valid configuration has
created the test and its variants, the operation deletes the created ABTest
record — so no draft test lingers — and reports failure; the AdCreative
variants, however, are not rolled back: they remain appended to the creative
table, one per supplied variant, all active. -/
theorem C8_launch_failure_rollback (cfg : TestConfig) (newTestId baseCreativeId : ℕ)
    (s : DBState) (hvalid : (validate_test_config cfg).valid = true)
    (hfresh : ∀ t ∈ s.tests, t.id ≠ newTestId) :
    (create_automated_ab_test cfg true false newTestId baseCreativeId s).2 = false ∧
    (create_automated_ab_test cfg true false newTestId baseCreativeId s).1.tests = s.tests ∧
    (create_automated_ab_test cfg true false newTestId baseCreativeId s).1.creatives =
      s.creatives ++ ((List.range (cfg.variants.getD []).length).map fun i =>
        { id := baseCreativeId + i, is_active := true }) := by
  unfold create_automated_ab_test
  rw [if_neg (by simp [hvalid]), if_neg (by simp), if_neg (by simp)]
  refine ⟨rfl, ?_, rfl⟩
  simp only [List.filter_append]
  rw [List.filter_eq_self.mpr, List.filter_cons, if_neg (by simp), List.filter_nil,
    List.append_nil]
  intro t ht
  simpa using hfresh t ht

/-- Witness for C8 at a concrete state with a pre-existing test and
creative. -/
theorem C8_launch_failure_rollback_witness :
    (create_automated_ab_test
        { test_type := some "cta", variants := some ["x", "y", "z"] }
        true false 9 20
        { tests := [{ id := 5, status := "running" }],
          creatives := [{ id := 1, is_active := true }] }).1.tests =
      [{ id := 5, status := "running" }] :=
  (C8_launch_failure_rollback
    { test_type := some "cta", variants := some ["x", "y", "z"] } 9 20
    { tests := [{ id := 5, status := "running" }],
      creatives := [{ id := 1, is_active := true }] }
    (by decide) (by decide)).2.1

/-! ## Claim C2 counterexample -/

/-- C2 counterexample: two creatives labelled A and B (one each) over a
window whose campaign-wide aggregate has 1000 impressions and 0 clicks give
both labels identical aggregated data, yet the pairwise two-proportion test
returns winner `inconclusive` — the pooled proportion is 0, so the standard
error is 0 and the degenerate branch fires — not the claimed `tie`. -/
theorem C2_counterexample :
    ((get_test_data [⟨1, 1⟩, ⟨2, 2⟩] [⟨0, 1000, 0, 0, 0⟩] 0 0).filter
        fun d => decide (d.variant_type = "A")).length =
      ((get_test_data [⟨1, 1⟩, ⟨2, 2⟩] [⟨0, 1000, 0, 0, 0⟩] 0 0).filter
        fun d => decide (d.variant_type = "B")).length ∧
    (pairwise_label_test (fun _ => 1/2) id "headline"
        (get_test_data [⟨1, 1⟩, ⟨2, 2⟩] [⟨0, 1000, 0, 0, 0⟩] 0 0) "A" "B").2.winner =
      "inconclusive" := by
  refine ⟨by decide, ?_⟩
  have h1 : variant_clicks (get_test_data [⟨1, 1⟩, ⟨2, 2⟩] [⟨0, 1000, 0, 0, 0⟩] 0 0) "A" = 0 := by
    decide
  have h2 : variant_clicks (get_test_data [⟨1, 1⟩, ⟨2, 2⟩] [⟨0, 1000, 0, 0, 0⟩] 0 0) "B" = 0 := by
    decide
  have h3 : variant_impressions (get_test_data [⟨1, 1⟩, ⟨2, 2⟩] [⟨0, 1000, 0, 0, 0⟩] 0 0) "A"
      = 1000 := by decide
  have h4 : variant_impressions (get_test_data [⟨1, 1⟩, ⟨2, 2⟩] [⟨0, 1000, 0, 0, 0⟩] 0 0) "B"
      = 1000 := by decide
  simp only [pairwise_label_test, pairwise_test, variant_stats]
  rw [h1, h2, h3, h4]
  norm_num [two_proportion_z_test, pooled_se_radicand]

/-! ## Claim C3 counterexample -/

/-- C3 counterexample: with two decrease opportunities aimed at the same ad
set, each suggesting a 30% cut, the per-opportunity 20% cap of line 279
compounds across the loop: a 100-budget ad set drops to 64, a 36%
single-cycle change — the claimed 20% bound fails for arbitrary opportunity
sets. -/
theorem C3_counterexample :
    calculate_optimal_allocation
        [{ otype := OppType.decrease_budget, ad_set_id := 0, current_budget := 100,
           confidence := 1, fraction := 3/10 },
         { otype := OppType.decrease_budget, ad_set_id := 0, current_budget := 100,
           confidence := 1, fraction := 3/10 }]
        (fun _ => 100) 0 = 64 ∧
    ¬ (|calculate_optimal_allocation
        [{ otype := OppType.decrease_budget, ad_set_id := 0, current_budget := 100,
           confidence := 1, fraction := 3/10 },
         { otype := OppType.decrease_budget, ad_set_id := 0, current_budget := 100,
           confidence := 1, fraction := 3/10 }]
        (fun _ => 100) 0 - 100| ≤ max_budget_change_per_day * 100) := by
  have h : calculate_optimal_allocation
      [{ otype := OppType.decrease_budget, ad_set_id := 0, current_budget := 100,
         confidence := 1, fraction := 3/10 },
       { otype := OppType.decrease_budget, ad_set_id := 0, current_budget := 100,
         confidence := 1, fraction := 3/10 }]
      (fun _ => 100) 0 = 64 := by
    norm_num [calculate_optimal_allocation, apply_decreases, apply_increases, dec_step,
      inc_step, max_budget_change_per_day, oppType_dec_ne_inc, oppType_inc_ne_dec,
      List.filter]
  refine ⟨h, ?_⟩
  rw [h]
  norm_num [max_budget_change_per_day]

/-! ## Claim C7 counterexample -/

/-- C7 counterexample: an ad set with performance score 0.5 and spend
utilization 0.4, alongside a second unremarkable ad set, generates exactly
one raw decrease opportunity (underperformance; the underutilization rule is
excluded by the no-double-penalty membership test), but that opportunity's
confidence 0.5 falls below the 0.7 acceptance threshold of line 255, so
`_identify_optimization_opportunities` returns no opportunity at all for it:
zero, not the claimed exactly one. -/
theorem C7_counterexample :
    identify_optimization_opportunities
        [{ id := 1, performance_score := 1/2, spend_utilization := 2/5,
           allocated_budget := 100 },
         { id := 2, performance_score := 1, spend_utilization := 9/10,
           allocated_budget := 100 }] = [] := by
  norm_num [identify_optimization_opportunities, raw_opportunities, increase_opps,
    decrease_low_opps, decrease_under_opps, low_performers, confidence_threshold,
    List.filter]

/-! ## Claim C1 -/

/-- C1: the stop decision of `_should_stop_test` follows the spec's priority
cascade.  For a running test: below 3 days it never stops, whatever the
p-values; at 14 days or more it stops with `Maximum test duration reached`
regardless of significance or sample size; otherwise a variant below the
minimum sample size blocks stopping; otherwise a pairwise test with
p < 0.01 and effect size > 0.10 stops early — with no 5-day requirement;
otherwise a pairwise test with p < 0.05 and effect size > 0.10 together
with at least 5 days stops with `Statistically significant result`;
otherwise reaching the planned `test_duration_days` stops with the
planned-duration reason; otherwise the test continues. -/
theorem C1_stop_decision_cascade (days minSS dur : ℕ) (sizes : List ℕ)
    (tests : List StopTestInfo) :
    (days < 3 → (should_stop_test days minSS dur sizes tests).1 = false)
  ∧ (14 ≤ days →
      should_stop_test days minSS dur sizes tests = (true, "Maximum test duration reached"))
  ∧ (3 ≤ days → days < 14 → (∃ s ∈ sizes, s < minSS) →
      (should_stop_test days minSS dur sizes tests).1 = false)
  ∧ (3 ≤ days → days < 14 → (∀ s ∈ sizes, minSS ≤ s) →
      (∃ t ∈ tests, t.p_value < early_stopping_threshold ∧
        minimum_effect_size < t.effect_size) →
      should_stop_test days minSS dur sizes tests =
        (true, "Early stopping - very significant result"))
  ∧ (3 ≤ days → days < 14 → (∀ s ∈ sizes, minSS ≤ s) →
      (∀ t ∈ tests, ¬ (t.p_value < early_stopping_threshold ∧
        minimum_effect_size < t.effect_size)) →
      (∃ t ∈ tests, t.p_value < significance_threshold ∧
        minimum_effect_size < t.effect_size) →
      5 ≤ days →
      should_stop_test days minSS dur sizes tests =
        (true, "Statistically significant result"))
  ∧ (3 ≤ days → days < 14 → (∀ s ∈ sizes, minSS ≤ s) →
      (∀ t ∈ tests, ¬ (t.p_value < early_stopping_threshold ∧
        minimum_effect_size < t.effect_size)) →
      ¬ ((∃ t ∈ tests, t.p_value < significance_threshold ∧
        minimum_effect_size < t.effect_size) ∧ 5 ≤ days) →
      dur ≤ days →
      should_stop_test days minSS dur sizes tests =
        (true, "Planned test duration completed"))
  ∧ (3 ≤ days → days < 14 → (∀ s ∈ sizes, minSS ≤ s) →
      (∀ t ∈ tests, ¬ (t.p_value < early_stopping_threshold ∧
        minimum_effect_size < t.effect_size)) →
      ¬ ((∃ t ∈ tests, t.p_value < significance_threshold ∧
        minimum_effect_size < t.effect_size) ∧ 5 ≤ days) →
      days < dur →
      should_stop_test days minSS dur sizes tests = (false, "Continue test")) := by
  have hmax : max_test_duration_days = 14 := rfl
  refine ⟨fun h1 => ?_, fun h2 => ?_, fun h3 h14 hex => ?_, fun h3 h14 hall hex => ?_,
    fun h3 h14 hall hne hex h5 => ?_, fun h3 h14 hall hne hns hd => ?_,
    fun h3 h14 hall hne hns hd => ?_⟩
  · simp only [should_stop_test, if_pos h1]
  · have hn3 : ¬ days < 3 := by omega
    simp only [should_stop_test, if_neg hn3]
    rw [if_pos (hmax ▸ h2)]
  · have hn3 : ¬ days < 3 := by omega
    have hn14 : ¬ max_test_duration_days ≤ days := by omega
    have hsz : ¬ (sizes.all fun s => decide (minSS ≤ s)) = true := by
      simp only [List.all_eq_true, decide_eq_true_eq]
      intro hforall
      obtain ⟨s, hs, hlt⟩ := hex
      exact absurd (hforall s hs) (by omega)
    simp only [should_stop_test, if_neg hn3, if_neg hn14, if_pos hsz]
  · have hn3 : ¬ days < 3 := by omega
    have hn14 : ¬ max_test_duration_days ≤ days := by omega
    have hsz : ¬ ¬ (sizes.all fun s => decide (minSS ≤ s)) = true := by
      simp only [List.all_eq_true, decide_eq_true_eq]
      exact not_not_intro hall
    have hany : (tests.any fun t => decide (t.p_value < early_stopping_threshold) &&
        decide (minimum_effect_size < t.effect_size)) = true := by
      simp only [List.any_eq_true, Bool.and_eq_true, decide_eq_true_eq]
      obtain ⟨t, ht, hp, he⟩ := hex
      exact ⟨t, ht, hp, he⟩
    simp only [should_stop_test, if_neg hn3, if_neg hn14, if_neg hsz, if_pos hany]
  · have hn3 : ¬ days < 3 := by omega
    have hn14 : ¬ max_test_duration_days ≤ days := by omega
    have hsz : ¬ ¬ (sizes.all fun s => decide (minSS ≤ s)) = true := by
      simp only [List.all_eq_true, decide_eq_true_eq]
      exact not_not_intro hall
    have hany : ¬ (tests.any fun t => decide (t.p_value < early_stopping_threshold) &&
        decide (minimum_effect_size < t.effect_size)) = true := by
      simp only [List.any_eq_true, Bool.and_eq_true, decide_eq_true_eq]
      rintro ⟨t, ht, hp, he⟩
      exact hne t ht ⟨hp, he⟩
    have hsig : ((tests.any fun t => decide (t.p_value < significance_threshold) &&
        decide (minimum_effect_size < t.effect_size)) && decide (5 ≤ days)) = true := by
      simp only [Bool.and_eq_true, List.any_eq_true, decide_eq_true_eq]
      obtain ⟨t, ht, hp, he⟩ := hex
      exact ⟨⟨t, ht, hp, he⟩, h5⟩
    simp only [should_stop_test, if_neg hn3, if_neg hn14, if_neg hsz, if_neg hany, if_pos hsig]
  · have hn3 : ¬ days < 3 := by omega
    have hn14 : ¬ max_test_duration_days ≤ days := by omega
    have hsz : ¬ ¬ (sizes.all fun s => decide (minSS ≤ s)) = true := by
      simp only [List.all_eq_true, decide_eq_true_eq]
      exact not_not_intro hall
    have hany : ¬ (tests.any fun t => decide (t.p_value < early_stopping_threshold) &&
        decide (minimum_effect_size < t.effect_size)) = true := by
      simp only [List.any_eq_true, Bool.and_eq_true, decide_eq_true_eq]
      rintro ⟨t, ht, hp, he⟩
      exact hne t ht ⟨hp, he⟩
    have hsig : ¬ ((tests.any fun t => decide (t.p_value < significance_threshold) &&
        decide (minimum_effect_size < t.effect_size)) && decide (5 ≤ days)) = true := by
      simp only [Bool.and_eq_true, List.any_eq_true, decide_eq_true_eq]
      rintro ⟨⟨t, ht, hp, he⟩, h5⟩
      exact hns ⟨⟨t, ht, hp, he⟩, h5⟩
    simp only [should_stop_test, if_neg hn3, if_neg hn14, if_neg hsz, if_neg hany,
      if_neg hsig, if_pos hd]
  · have hn3 : ¬ days < 3 := by omega
    have hn14 : ¬ max_test_duration_days ≤ days := by omega
    have hsz : ¬ ¬ (sizes.all fun s => decide (minSS ≤ s)) = true := by
      simp only [List.all_eq_true, decide_eq_true_eq]
      exact not_not_intro hall
    have hany : ¬ (tests.any fun t => decide (t.p_value < early_stopping_threshold) &&
        decide (minimum_effect_size < t.effect_size)) = true := by
      simp only [List.any_eq_true, Bool.and_eq_true, decide_eq_true_eq]
      rintro ⟨t, ht, hp, he⟩
      exact hne t ht ⟨hp, he⟩
    have hsig : ¬ ((tests.any fun t => decide (t.p_value < significance_threshold) &&
        decide (minimum_effect_size < t.effect_size)) && decide (5 ≤ days)) = true := by
      simp only [Bool.and_eq_true, List.any_eq_true, decide_eq_true_eq]
      rintro ⟨⟨t, ht, hp, he⟩, h5⟩
      exact hns ⟨⟨t, ht, hp, he⟩, h5⟩
    have hdur : ¬ dur ≤ days := by omega
    simp only [should_stop_test, if_neg hn3, if_neg hn14, if_neg hsz, if_neg hany,
      if_neg hsig, if_neg hdur]

/-- Witness for C1 exercising three branches of the cascade at concrete
inputs: a 20-day test stops on max duration whatever the data, a 2-day test
with a perfectly significant result does not stop, and a 4-day test with
p = 0.005 and effect 0.5 stops early despite being under the 5-day gate. -/
theorem C1_stop_decision_cascade_witness :
    should_stop_test 20 100 7 [50] [] = (true, "Maximum test duration reached") ∧
    (should_stop_test 2 100 7 [1000] [{ p_value := 0, effect_size := 1 }]).1 = false ∧
    should_stop_test 4 100 7 [1000] [{ p_value := 1/200, effect_size := 1/2 }] =
      (true, "Early stopping - very significant result") := by
  refine ⟨(C1_stop_decision_cascade 20 100 7 [50] []).2.1 (by omega),
    (C1_stop_decision_cascade 2 100 7 [1000] [{ p_value := 0, effect_size := 1 }]).1 (by omega),
    (C1_stop_decision_cascade 4 100 7 [1000]
        [{ p_value := 1/200, effect_size := 1/2 }]).2.2.2.1 (by omega) (by omega) ?_ ?_⟩
  · intro s hs
    rw [List.mem_singleton] at hs
    omega
  · refine ⟨{ p_value := 1/200, effect_size := 1/2 }, List.mem_singleton_self _, ?_, ?_⟩
    · norm_num [early_stopping_threshold]
    · norm_num [minimum_effect_size]

/-! ## Claim C4 -/

/-- When every ad set has a nonzero previous budget, the write loop runs to
completion: the final table rewrites exactly the ad sets whose change clears
their own 5% relative threshold, and `changes_made` lists exactly those ad
sets in order. -/
theorem apply_loop_ok (newAlloc : ℕ → Option ℚ) (l : List AdSetRec)
    (h : ∀ a ∈ l, a.allocated_budget ≠ 0) :
    apply_loop newAlloc l = LoopResult.ok
      (l.map fun a =>
        if a.allocated_budget * min_budget_change_threshold ≤
            |proposed_budget newAlloc a - a.allocated_budget| then
          { id := a.id, allocated_budget := proposed_budget newAlloc a }
        else a)
      ((l.filter fun a =>
        decide (a.allocated_budget * min_budget_change_threshold ≤
          |proposed_budget newAlloc a - a.allocated_budget|)).map AdSetRec.id) := by
  induction l with
  | nil => rfl
  | cons a rest ih =>
    have hrest := ih fun b hb => h b (List.mem_cons_of_mem a hb)
    by_cases hw : a.allocated_budget * min_budget_change_threshold ≤
        |proposed_budget newAlloc a - a.allocated_budget|
    · unfold apply_loop
      rw [if_pos hw, if_neg (h a (List.mem_cons_self a rest)), hrest,
        List.map_cons, if_pos hw, List.filter_cons, if_pos (decide_eq_true hw),
        List.map_cons]
    · unfold apply_loop
      rw [if_neg hw, hrest, List.map_cons, if_neg hw, List.filter_cons,
        if_neg (by simpa using hw)]

/-- Whenever some ad set of the table has a zero previous budget, the write
loop aborts: its line-339 threshold check is vacuously true, so line 349
divides the change by zero. -/
theorem apply_loop_isOk_false (newAlloc : ℕ → Option ℚ) (l : List AdSetRec)
    (h : ∃ a ∈ l, a.allocated_budget = 0) :
    (apply_loop newAlloc l).isOk = false := by
  induction l with
  | nil =>
    obtain ⟨a, ha, -⟩ := h
    exact absurd ha (List.not_mem_nil a)
  | cons a rest ih =>
    by_cases ha0 : a.allocated_budget = 0
    · unfold apply_loop
      rw [if_pos (by rw [ha0]; simp), if_pos ha0]
      rfl
    · have hrest : ∃ b ∈ rest, b.allocated_budget = 0 := by
        obtain ⟨b, hb, hb0⟩ := h
        rcases List.mem_cons.mp hb with h1 | h2
        · exact absurd (h1 ▸ hb0) ha0
        · exact ⟨b, h2, hb0⟩
      have hok := ih hrest
      unfold apply_loop
      by_cases hw : a.allocated_budget * min_budget_change_threshold ≤
          |proposed_budget newAlloc a - a.allocated_budget|
      · rw [if_pos hw, if_neg ha0]
        cases hres : apply_loop newAlloc rest with
        | ok w c =>
          rw [hres] at hok
          exact absurd hok (by simp [LoopResult.isOk])
        | err w => rfl
      · rw [if_neg hw]
        cases hres : apply_loop newAlloc rest with
        | ok w c =>
          rw [hres] at hok
          exact absurd hok (by simp [LoopResult.isOk])
        | err w => rfl

/-- C4 counterexample: a campaign with ad sets of budgets 100 and 0 and a
proposed move of the first to 120 clears the 5% aggregate gate (its change
fraction is 0.2), yet no `BudgetOptimization` record is created: the
zero-budget ad set passes the vacuous line-339 check and the
`change_percentage` division of line 349 raises, so the handler returns a
failure result — after the first ad set's budget was already rewritten to
120, a partial write.  The claim's promise of exactly one record per
qualifying cycle fails. -/
theorem C4_zero_budget_counterexample :
    should_apply_changes
      [{ id := 1, allocated_budget := 100 }, { id := 2, allocated_budget := 0 }]
      (fun i => if i = 1 then some 120 else some 0) = true ∧
    (optimize_apply_gate
      [{ id := 1, allocated_budget := 100 }, { id := 2, allocated_budget := 0 }]
      (fun i => if i = 1 then some 120 else some 0)).recordsCreated = 0 ∧
    (optimize_apply_gate
      [{ id := 1, allocated_budget := 100 }, { id := 2, allocated_budget := 0 }]
      (fun i => if i = 1 then some 120 else some 0)).success = false ∧
    (optimize_apply_gate
      [{ id := 1, allocated_budget := 100 }, { id := 2, allocated_budget := 0 }]
      (fun i => if i = 1 then some 120 else some 0)).finalBudgets =
      [{ id := 1, allocated_budget := 120 }, { id := 2, allocated_budget := 0 }] := by
  have hshould : should_apply_changes
      [{ id := 1, allocated_budget := 100 }, { id := 2, allocated_budget := 0 }]
      (fun i => if i = 1 then some 120 else some 0) = true := by
    norm_num [should_apply_changes, proposed_budget, min_budget_change_threshold]
  have hloop : apply_loop (fun i => if i = 1 then some 120 else some 0)
      [{ id := 1, allocated_budget := 100 }, { id := 2, allocated_budget := 0 }] =
      LoopResult.err
        [{ id := 1, allocated_budget := 120 }, { id := 2, allocated_budget := 0 }] := by
    norm_num [apply_loop, proposed_budget, min_budget_change_threshold]
  have hgate : optimize_apply_gate
      [{ id := 1, allocated_budget := 100 }, { id := 2, allocated_budget := 0 }]
      (fun i => if i = 1 then some 120 else some 0) =
      { success := false,
        finalBudgets := [{ id := 1, allocated_budget := 120 }, { id := 2, allocated_budget := 0 }],
        recordsCreated := 0, changesMade := [] } := by
    unfold optimize_apply_gate
    rw [hshould, if_pos rfl]
    unfold apply_budget_optimization
    rw [hloop]
  exact ⟨hshould, by rw [hgate], by rw [hgate], by rw [hgate]⟩

/-- C4 (amended): the apply gate of `optimize_campaign_budgets`.  Below the
5% aggregate-change fraction nothing happens: no budget is written, no
`BudgetOptimization` record is created, and the below-threshold result comes
back.  At or above it, provided every ad set has a nonzero previous budget,
the optimization is applied: exactly one record is created and an individual
ad set's budget is written only when its own change clears the 5% relative
threshold — below it the stored row survives, at or above it the proposed
budget is written.  But when any ad set has a zero previous budget, its
vacuously-true line-339 check leads into the line-349 division by zero: the
cycle aborts with a failure result, no record is created, and the budgets
already written persist (`C4_zero_budget_counterexample`).  Primary keys of
the ad set rows are assumed distinct (`hnodup`). -/
theorem C4_apply_gate (adSets : List AdSetRec) (newAlloc : ℕ → Option ℚ)
    (hnodup : (adSets.map AdSetRec.id).Nodup) :
    (0 < (adSets.map fun a => a.allocated_budget).sum →
      (adSets.map fun a => |proposed_budget newAlloc a - a.allocated_budget|).sum /
          (adSets.map fun a => a.allocated_budget).sum < min_budget_change_threshold →
      optimize_apply_gate adSets newAlloc =
        { success := false, finalBudgets := adSets, recordsCreated := 0, changesMade := [] })
  ∧ (0 < (adSets.map fun a => a.allocated_budget).sum →
      min_budget_change_threshold ≤
        (adSets.map fun a => |proposed_budget newAlloc a - a.allocated_budget|).sum /
          (adSets.map fun a => a.allocated_budget).sum →
      (∀ a ∈ adSets, a.allocated_budget ≠ 0) →
      (optimize_apply_gate adSets newAlloc).success = true ∧
      (optimize_apply_gate adSets newAlloc).recordsCreated = 1 ∧
      (∀ a ∈ adSets, a.id ∈ (optimize_apply_gate adSets newAlloc).changesMade →
        a.allocated_budget * min_budget_change_threshold ≤
          |proposed_budget newAlloc a - a.allocated_budget|) ∧
      (∀ a ∈ adSets,
        |proposed_budget newAlloc a - a.allocated_budget| <
          a.allocated_budget * min_budget_change_threshold →
        a ∈ (optimize_apply_gate adSets newAlloc).finalBudgets) ∧
      (∀ a ∈ adSets,
        a.allocated_budget * min_budget_change_threshold ≤
          |proposed_budget newAlloc a - a.allocated_budget| →
        ({ id := a.id, allocated_budget := proposed_budget newAlloc a } : AdSetRec) ∈
          (optimize_apply_gate adSets newAlloc).finalBudgets))
  ∧ (0 < (adSets.map fun a => a.allocated_budget).sum →
      min_budget_change_threshold ≤
        (adSets.map fun a => |proposed_budget newAlloc a - a.allocated_budget|).sum /
          (adSets.map fun a => a.allocated_budget).sum →
      (∃ a ∈ adSets, a.allocated_budget = 0) →
      (optimize_apply_gate adSets newAlloc).success = false ∧
      (optimize_apply_gate adSets newAlloc).recordsCreated = 0) := by
  have hgate_of : min_budget_change_threshold ≤
      (adSets.map fun a => |proposed_budget newAlloc a - a.allocated_budget|).sum /
        (adSets.map fun a => a.allocated_budget).sum →
      0 < (adSets.map fun a => a.allocated_budget).sum →
      optimize_apply_gate adSets newAlloc = apply_budget_optimization adSets newAlloc := by
    intro hge hpos
    have hshould : should_apply_changes adSets newAlloc = true := by
      unfold should_apply_changes
      rw [if_pos hpos]
      exact decide_eq_true hge
    unfold optimize_apply_gate
    rw [hshould]
    rfl
  refine ⟨?_, ?_, ?_⟩
  · intro hpos hlt
    have hshould : should_apply_changes adSets newAlloc = false := by
      unfold should_apply_changes
      rw [if_pos hpos]
      exact decide_eq_false (not_le.mpr hlt)
    unfold optimize_apply_gate
    rw [hshould]
    rfl
  · intro hpos hge hnz
    have hopt : apply_budget_optimization adSets newAlloc =
        { success := true
          finalBudgets := adSets.map fun a =>
            if a.allocated_budget * min_budget_change_threshold ≤
                |proposed_budget newAlloc a - a.allocated_budget| then
              { id := a.id, allocated_budget := proposed_budget newAlloc a }
            else a
          recordsCreated := 1
          changesMade := (adSets.filter fun a =>
            decide (a.allocated_budget * min_budget_change_threshold ≤
              |proposed_budget newAlloc a - a.allocated_budget|)).map AdSetRec.id } := by
      unfold apply_budget_optimization
      rw [apply_loop_ok newAlloc adSets hnz]
    rw [hgate_of hge hpos, hopt]
    refine ⟨rfl, rfl, ?_, ?_, ?_⟩
    · intro a ha hid
      simp only [List.mem_map] at hid
      obtain ⟨b, hb, hbid⟩ := hid
      have hbmem := List.mem_of_mem_filter hb
      have hbp := List.of_mem_filter hb
      have hba : b = a := List.inj_on_of_nodup_map hnodup hbmem ha hbid
      rw [hba] at hbp
      exact of_decide_eq_true hbp
    · intro a ha hlt
      simp only [List.mem_map]
      exact ⟨a, ha, by rw [if_neg (not_le.mpr hlt)]⟩
    · intro a ha hge2
      simp only [List.mem_map]
      exact ⟨a, ha, by rw [if_pos hge2]⟩
  · intro hpos hge hzero
    rw [hgate_of hge hpos]
    unfold apply_budget_optimization
    have hok := apply_loop_isOk_false newAlloc adSets hzero
    cases hres : apply_loop newAlloc adSets with
    | ok w c =>
      rw [hres] at hok
      exact absurd hok (by simp [LoopResult.isOk])
    | err w => exact ⟨rfl, rfl⟩

/-- Witness for C4 at a two-ad-set campaign with positive budgets whose
aggregate change is 10%: the cycle completes and one audit record is
created. -/
theorem C4_apply_gate_witness :
    (optimize_apply_gate [{ id := 1, allocated_budget := 100 }, { id := 2, allocated_budget := 100 }]
        fun i => if i = 1 then some 120 else some 100).recordsCreated = 1 :=
  ((C4_apply_gate [{ id := 1, allocated_budget := 100 }, { id := 2, allocated_budget := 100 }]
      (fun i => if i = 1 then some 120 else some 100) (by decide)).2.1
    (by norm_num [proposed_budget])
    (by norm_num [proposed_budget, min_budget_change_threshold])
    (by
      intro a ha
      fin_cases ha <;> norm_num)).2.1

/-! ## Claim C2 (amended) -/

/-- Every entry produced by `_get_test_data` carries the same campaign-wide
window aggregate, because the analytics query never filters on the
creative. -/
theorem get_test_data_fields (creatives : List Creative) (rows : List AnalyticsRow)
    (sd ed : ℕ) :
    ∀ d ∈ get_test_data creatives rows sd ed,
      d.impressions = agg_impressions rows sd ed ∧ d.clicks = agg_clicks rows sd ed ∧
      d.conversions = agg_conversions rows sd ed ∧ d.spend = agg_spend rows sd ed := by
  intro d hd
  obtain ⟨c, hc, rfl⟩ := List.mem_map.mp hd
  exact ⟨rfl, rfl, rfl, rfl⟩

/-- A variant label's aggregated clicks are the campaign-wide aggregate
multiplied by the number of creatives carrying the label. -/
theorem variant_clicks_eq (creatives : List Creative) (rows : List AnalyticsRow)
    (sd ed : ℕ) (l : String) :
    variant_clicks (get_test_data creatives rows sd ed) l =
      ((get_test_data creatives rows sd ed).filter
        fun d => decide (d.variant_type = l)).length * agg_clicks rows sd ed := by
  unfold variant_clicks
  apply sum_map_const_nat
  intro x hx
  exact (get_test_data_fields creatives rows sd ed x (List.mem_of_mem_filter hx)).2.1

/-- A variant label's aggregated impressions are the campaign-wide aggregate
multiplied by the number of creatives carrying the label. -/
theorem variant_impressions_eq (creatives : List Creative) (rows : List AnalyticsRow)
    (sd ed : ℕ) (l : String) :
    variant_impressions (get_test_data creatives rows sd ed) l =
      ((get_test_data creatives rows sd ed).filter
        fun d => decide (d.variant_type = l)).length * agg_impressions rows sd ed := by
  unfold variant_impressions
  apply sum_map_const_nat
  intro x hx
  exact (get_test_data_fields creatives rows sd ed x (List.mem_of_mem_filter hx)).1

/-- C2 (amended): `_get_test_data` assigns every creative the identical
campaign-wide aggregated metrics, so two variant labels covering the same
number of creatives always have exactly equal aggregated clicks and
impressions.  Every pairwise two-proportion test between them then returns
p_value 1.0 and effect size 0, and its winner is never `A` or `B` — no
genuine winner can ever be declared from such data.  The winner is exactly
`tie` when the shared data is non-degenerate (nonzero impressions and
nonzero pooled standard error); in the degenerate cases it is
`inconclusive` rather than the `tie` the claim states, as
`C2_counterexample` shows. -/
theorem C2_identical_test_data (Phi sqrtQ : ℚ → ℚ) (hPhi : Phi 0 = 1/2)
    (creatives : List Creative) (rows : List AnalyticsRow) (sd ed : ℕ)
    (test_type la lb : String)
    (hcount : ((get_test_data creatives rows sd ed).filter
          fun d => decide (d.variant_type = la)).length =
        ((get_test_data creatives rows sd ed).filter
          fun d => decide (d.variant_type = lb)).length) :
    (∀ d ∈ get_test_data creatives rows sd ed, ∀ e ∈ get_test_data creatives rows sd ed,
      d.impressions = e.impressions ∧ d.clicks = e.clicks ∧
      d.conversions = e.conversions ∧ d.spend = e.spend)
  ∧ variant_clicks (get_test_data creatives rows sd ed) la =
      variant_clicks (get_test_data creatives rows sd ed) lb
  ∧ variant_impressions (get_test_data creatives rows sd ed) la =
      variant_impressions (get_test_data creatives rows sd ed) lb
  ∧ (pairwise_label_test Phi sqrtQ test_type
      (get_test_data creatives rows sd ed) la lb).2.p_value = 1
  ∧ (pairwise_label_test Phi sqrtQ test_type
      (get_test_data creatives rows sd ed) la lb).2.effect_size = 0
  ∧ (pairwise_label_test Phi sqrtQ test_type
      (get_test_data creatives rows sd ed) la lb).2.winner ≠ "A"
  ∧ (pairwise_label_test Phi sqrtQ test_type
      (get_test_data creatives rows sd ed) la lb).2.winner ≠ "B"
  ∧ (variant_impressions (get_test_data creatives rows sd ed) la ≠ 0 →
      sqrtQ (pooled_se_radicand
        (variant_clicks (get_test_data creatives rows sd ed) la)
        (variant_impressions (get_test_data creatives rows sd ed) la)
        (variant_clicks (get_test_data creatives rows sd ed) lb)
        (variant_impressions (get_test_data creatives rows sd ed) lb)) ≠ 0 →
      (pairwise_label_test Phi sqrtQ test_type
        (get_test_data creatives rows sd ed) la lb).2.winner = "tie") := by
  have hfields := get_test_data_fields creatives rows sd ed
  have hclicks : variant_clicks (get_test_data creatives rows sd ed) la =
      variant_clicks (get_test_data creatives rows sd ed) lb := by
    rw [variant_clicks_eq, variant_clicks_eq, hcount]
  have himpr : variant_impressions (get_test_data creatives rows sd ed) la =
      variant_impressions (get_test_data creatives rows sd ed) lb := by
    rw [variant_impressions_eq, variant_impressions_eq, hcount]
  have hz := z_test_same_inputs Phi sqrtQ
    (variant_clicks (get_test_data creatives rows sd ed) la)
    (variant_impressions (get_test_data creatives rows sd ed) la) hPhi
  refine ⟨?_, hclicks, himpr, ?_, ?_, ?_, ?_, ?_⟩
  · intro d hd e he
    obtain ⟨h1, h2, h3, h4⟩ := hfields d hd
    obtain ⟨g1, g2, g3, g4⟩ := hfields e he
    exact ⟨h1.trans g1.symm, h2.trans g2.symm, h3.trans g3.symm, h4.trans g4.symm⟩
  · simp only [pairwise_label_test, pairwise_test, variant_stats]
    rw [← hclicks, ← himpr]
    exact hz.1
  · simp only [pairwise_label_test, pairwise_test, variant_stats]
    rw [← hclicks, ← himpr]
    exact hz.2.1
  · simp only [pairwise_label_test, pairwise_test, variant_stats]
    rw [← hclicks, ← himpr]
    exact hz.2.2.1
  · simp only [pairwise_label_test, pairwise_test, variant_stats]
    rw [← hclicks, ← himpr]
    exact hz.2.2.2.1
  · intro ht hse
    rw [← hclicks, ← himpr] at hse
    simp only [pairwise_label_test, pairwise_test, variant_stats]
    rw [← hclicks, ← himpr]
    exact hz.2.2.2.2 ht hse

/-- Witness for C2 at a concrete non-degenerate two-variant test: one
creative per label, 1000 impressions and 50 clicks in the shared aggregate,
producing the forced tie. -/
theorem C2_identical_test_data_witness :
    (pairwise_label_test (fun _ => 1/2) id "headline"
        (get_test_data [⟨1, 1⟩, ⟨2, 2⟩] [⟨0, 1000, 50, 5, 0⟩] 0 0) "A" "B").2.winner = "tie" :=
  (C2_identical_test_data (fun _ => 1/2) id rfl [⟨1, 1⟩, ⟨2, 2⟩] [⟨0, 1000, 50, 5, 0⟩] 0 0
      "headline" "A" "B" (by decide)).2.2.2.2.2.2.2
    (by decide)
    (by
      show id (pooled_se_radicand 50 1000 50 1000) ≠ 0
      norm_num [pooled_se_radicand])

/-! ## Claim C3 (amended): lemmas on the two allocation passes -/

/-- Unfolding of `dec_step` on a decrease opportunity. -/
theorem dec_step_eq (acc : (ℕ → ℚ) × ℚ) (o : Opportunity)
    (ht : o.otype = OppType.decrease_budget) :
    dec_step acc o =
      (fun j => if j = o.ad_set_id then
          acc.1 o.ad_set_id - min (acc.1 o.ad_set_id * o.fraction)
            (acc.1 o.ad_set_id * max_budget_change_per_day)
        else acc.1 j,
       acc.2 + min (acc.1 o.ad_set_id * o.fraction)
         (acc.1 o.ad_set_id * max_budget_change_per_day)) := by
  unfold dec_step
  rw [if_pos ht]

/-- `dec_step` ignores non-decrease opportunities. -/
theorem dec_step_skip (acc : (ℕ → ℚ) × ℚ) (o : Opportunity)
    (ht : ¬ o.otype = OppType.decrease_budget) : dec_step acc o = acc := by
  unfold dec_step
  rw [if_neg ht]

/-- One decrease step keeps the targeted ad set's budget between 80% and
100% of its pre-step value. -/
theorem dec_step_value_bounds (acc : (ℕ → ℚ) × ℚ) (o : Opportunity)
    (hb : ∀ j, 0 ≤ acc.1 j) (hf : 0 ≤ o.fraction) (i : ℕ)
    (htarget : o.otype = OppType.decrease_budget ∧ o.ad_set_id = i) :
    (4/5) * acc.1 i ≤ (dec_step acc o).1 i ∧ (dec_step acc o).1 i ≤ acc.1 i := by
  obtain ⟨ht, hid⟩ := htarget
  rw [dec_step_eq acc o ht]
  dsimp only
  rw [hid, if_pos rfl]
  have hc0 : 0 ≤ acc.1 i := hb i
  have h1 : 0 ≤ min (acc.1 i * o.fraction) (acc.1 i * max_budget_change_per_day) :=
    le_min (mul_nonneg hc0 hf) (mul_nonneg hc0 (by norm_num [max_budget_change_per_day]))
  have h2 : min (acc.1 i * o.fraction) (acc.1 i * max_budget_change_per_day) ≤
      acc.1 i * max_budget_change_per_day := min_le_right _ _
  have h3 : acc.1 i * max_budget_change_per_day = (1/5) * acc.1 i := by
    rw [max_budget_change_per_day]
    ring
  constructor
  · linarith
  · linarith

/-- A decrease step leaves every non-targeted index unchanged. -/
theorem dec_step_untouched (acc : (ℕ → ℚ) × ℚ) (o : Opportunity) (i : ℕ)
    (h : ¬ (o.otype = OppType.decrease_budget ∧ o.ad_set_id = i)) :
    (dec_step acc o).1 i = acc.1 i := by
  by_cases ht : o.otype = OppType.decrease_budget
  · have hid : ¬ o.ad_set_id = i := fun hid => h ⟨ht, hid⟩
    rw [dec_step_eq acc o ht]
    dsimp only
    rw [if_neg fun hii : i = o.ad_set_id => hid hii.symm]
  · rw [dec_step_skip acc o ht]

/-- A decrease step preserves nonnegativity of every budget. -/
theorem dec_step_nonneg (acc : (ℕ → ℚ) × ℚ) (o : Opportunity)
    (hb : ∀ j, 0 ≤ acc.1 j) (hf : 0 ≤ o.fraction) :
    ∀ j, 0 ≤ (dec_step acc o).1 j := by
  intro j
  by_cases htar : o.otype = OppType.decrease_budget ∧ o.ad_set_id = j
  · have h1 := (dec_step_value_bounds acc o hb hf j htar).1
    have h2 := hb j
    linarith
  · rw [dec_step_untouched acc o j htar]
    exact hb j

/-- A decrease step never shrinks the redistribution pool. -/
theorem dec_step_pool (acc : (ℕ → ℚ) × ℚ) (o : Opportunity)
    (hb : ∀ j, 0 ≤ acc.1 j) (hf : 0 ≤ o.fraction) :
    acc.2 ≤ (dec_step acc o).2 := by
  by_cases ht : o.otype = OppType.decrease_budget
  · rw [dec_step_eq acc o ht]
    dsimp only
    have h1 : 0 ≤ min (acc.1 o.ad_set_id * o.fraction)
        (acc.1 o.ad_set_id * max_budget_change_per_day) :=
      le_min (mul_nonneg (hb _) hf)
        (mul_nonneg (hb _) (by norm_num [max_budget_change_per_day]))
    linarith
  · rw [dec_step_skip acc o ht]

/-- The decrease pass preserves nonnegativity of every budget. -/
theorem decFold_nonneg (l : List Opportunity) (acc : (ℕ → ℚ) × ℚ)
    (hb : ∀ j, 0 ≤ acc.1 j) (hf : ∀ o ∈ l, 0 ≤ o.fraction) :
    ∀ j, 0 ≤ (l.foldl dec_step acc).1 j := by
  induction l generalizing acc with
  | nil => exact hb
  | cons o rest ih =>
    rw [List.foldl_cons]
    exact ih (dec_step acc o)
      (dec_step_nonneg acc o hb (hf o (List.mem_cons_self o rest)))
      fun p hp => hf p (List.mem_cons_of_mem o hp)

/-- The decrease pass never shrinks the redistribution pool. -/
theorem decFold_pool (l : List Opportunity) (acc : (ℕ → ℚ) × ℚ)
    (hb : ∀ j, 0 ≤ acc.1 j) (hf : ∀ o ∈ l, 0 ≤ o.fraction) :
    acc.2 ≤ (l.foldl dec_step acc).2 := by
  induction l generalizing acc with
  | nil => exact le_refl _
  | cons o rest ih =>
    rw [List.foldl_cons]
    exact le_trans (dec_step_pool acc o hb (hf o (List.mem_cons_self o rest)))
      (ih (dec_step acc o)
        (dec_step_nonneg acc o hb (hf o (List.mem_cons_self o rest)))
        fun p hp => hf p (List.mem_cons_of_mem o hp))

/-- Indices targeted by no decrease opportunity of the list keep their value
through the decrease pass. -/
theorem decFold_untouched (l : List Opportunity) (acc : (ℕ → ℚ) × ℚ) (i : ℕ)
    (h : l.countP (fun o => decide (o.otype = OppType.decrease_budget ∧ o.ad_set_id = i)) = 0) :
    (l.foldl dec_step acc).1 i = acc.1 i := by
  induction l generalizing acc with
  | nil => rfl
  | cons o rest ih =>
    simp only [List.countP_cons] at h
    by_cases hp : decide (o.otype = OppType.decrease_budget ∧ o.ad_set_id = i) = true
    · rw [if_pos hp] at h
      omega
    · rw [if_neg hp] at h
      rw [List.foldl_cons, ih (dec_step acc o) h,
        dec_step_untouched acc o i (by simpa using hp)]

/-- With at most one decrease opportunity aimed at index `i`, the decrease
pass keeps `i`'s budget between 80% and 100% of its starting value. -/
theorem decFold_bounds (l : List Opportunity) (acc : (ℕ → ℚ) × ℚ) (i : ℕ)
    (hcount : l.countP
      (fun o => decide (o.otype = OppType.decrease_budget ∧ o.ad_set_id = i)) ≤ 1)
    (hb : ∀ j, 0 ≤ acc.1 j) (hf : ∀ o ∈ l, 0 ≤ o.fraction) :
    (4/5) * acc.1 i ≤ (l.foldl dec_step acc).1 i ∧ (l.foldl dec_step acc).1 i ≤ acc.1 i := by
  induction l generalizing acc with
  | nil =>
    have := hb i
    rw [List.foldl_nil]
    exact ⟨by linarith, le_refl _⟩
  | cons o rest ih =>
    rw [List.foldl_cons]
    simp only [List.countP_cons] at hcount
    by_cases hp : decide (o.otype = OppType.decrease_budget ∧ o.ad_set_id = i) = true
    · rw [if_pos hp] at hcount
      have hrest0 : rest.countP
          (fun o => decide (o.otype = OppType.decrease_budget ∧ o.ad_set_id = i)) = 0 := by
        omega
      have htar : o.otype = OppType.decrease_budget ∧ o.ad_set_id = i := by simpa using hp
      rw [decFold_untouched rest (dec_step acc o) i hrest0]
      exact dec_step_value_bounds acc o hb (hf o (List.mem_cons_self o rest)) i htar
    · rw [if_neg hp] at hcount
      have hun := dec_step_untouched acc o i (by simpa using hp)
      have hrec := ih (dec_step acc o) (by omega)
        (dec_step_nonneg acc o hb (hf o (List.mem_cons_self o rest)))
        fun p hp2 => hf p (List.mem_cons_of_mem o hp2)
      rw [hun] at hrec
      exact hrec

/-- Unfolding of `inc_step` when the total performance weight is positive. -/
theorem inc_step_eq (pool W : ℚ) (a : ℕ → ℚ) (o : Opportunity) (hW : 0 < W) :
    inc_step pool W a o = fun j => if j = o.ad_set_id then
        a o.ad_set_id + min (pool * (o.confidence * o.fraction / W))
          (a o.ad_set_id * max_budget_change_per_day)
      else a j := by
  unfold inc_step
  rw [if_pos hW]

/-- `inc_step` is the identity when the total performance weight is not
positive. -/
theorem inc_step_skip (pool W : ℚ) (a : ℕ → ℚ) (o : Opportunity) (hW : ¬ 0 < W) :
    inc_step pool W a o = a := by
  unfold inc_step
  rw [if_neg hW]

/-- One increase step keeps the targeted ad set's budget between 100% and
120% of its pre-step value. -/
theorem inc_step_value_bounds (pool W : ℚ) (a : ℕ → ℚ) (o : Opportunity) (i : ℕ)
    (hb : ∀ j, 0 ≤ a j) (hcf : 0 ≤ o.confidence * o.fraction) (hpool : 0 ≤ pool)
    (hid : o.ad_set_id = i) :
    a i ≤ inc_step pool W a o i ∧ inc_step pool W a o i ≤ (6/5) * a i := by
  by_cases hW : 0 < W
  · rw [inc_step_eq pool W a o hW]
    dsimp only
    rw [hid, if_pos rfl]
    have hc0 : 0 ≤ a i := hb i
    have hamt : 0 ≤ pool * (o.confidence * o.fraction / W) :=
      mul_nonneg hpool (div_nonneg hcf (le_of_lt hW))
    have h1 : 0 ≤ min (pool * (o.confidence * o.fraction / W))
        (a i * max_budget_change_per_day) :=
      le_min hamt (mul_nonneg hc0 (by norm_num [max_budget_change_per_day]))
    have h2 : min (pool * (o.confidence * o.fraction / W))
        (a i * max_budget_change_per_day) ≤ a i * max_budget_change_per_day :=
      min_le_right _ _
    have h3 : a i * max_budget_change_per_day = (1/5) * a i := by
      rw [max_budget_change_per_day]
      ring
    constructor
    · linarith
    · linarith
  · rw [inc_step_skip pool W a o hW]
    have := hb i
    exact ⟨le_refl _, by linarith⟩

/-- An increase step leaves every non-targeted index unchanged. -/
theorem inc_step_untouched (pool W : ℚ) (a : ℕ → ℚ) (o : Opportunity) (i : ℕ)
    (hid : ¬ o.ad_set_id = i) : inc_step pool W a o i = a i := by
  by_cases hW : 0 < W
  · rw [inc_step_eq pool W a o hW]
    dsimp only
    rw [if_neg fun hii : i = o.ad_set_id => hid hii.symm]
  · rw [inc_step_skip pool W a o hW]

/-- An increase step preserves nonnegativity of every budget. -/
theorem inc_step_nonneg (pool W : ℚ) (a : ℕ → ℚ) (o : Opportunity)
    (hb : ∀ j, 0 ≤ a j) (hcf : 0 ≤ o.confidence * o.fraction) (hpool : 0 ≤ pool) :
    ∀ j, 0 ≤ inc_step pool W a o j := by
  intro j
  by_cases hid : o.ad_set_id = j
  · have h1 := (inc_step_value_bounds pool W a o j hb hcf hpool hid).1
    have h2 := hb j
    linarith
  · rw [inc_step_untouched pool W a o j hid]
    exact hb j

/-- Indices targeted by no opportunity of the list keep their value through
the increase pass. -/
theorem incFold_untouched (l : List Opportunity) (pool W : ℚ) (a : ℕ → ℚ) (i : ℕ)
    (h : l.countP (fun o => decide (o.ad_set_id = i)) = 0) :
    l.foldl (inc_step pool W) a i = a i := by
  induction l generalizing a with
  | nil => rfl
  | cons o rest ih =>
    simp only [List.countP_cons] at h
    by_cases hp : decide (o.ad_set_id = i) = true
    · rw [if_pos hp] at h
      omega
    · rw [if_neg hp] at h
      rw [List.foldl_cons, ih (inc_step pool W a o) h,
        inc_step_untouched pool W a o i (by simpa using hp)]

/-- With at most one opportunity of the list aimed at index `i`, the
increase pass keeps `i`'s budget between 100% and 120% of its starting
value. -/
theorem incFold_bounds (l : List Opportunity) (pool W : ℚ) (a : ℕ → ℚ) (i : ℕ)
    (hcount : l.countP (fun o => decide (o.ad_set_id = i)) ≤ 1)
    (hb : ∀ j, 0 ≤ a j) (hcf : ∀ o ∈ l, 0 ≤ o.confidence * o.fraction)
    (hpool : 0 ≤ pool) :
    a i ≤ l.foldl (inc_step pool W) a i ∧ l.foldl (inc_step pool W) a i ≤ (6/5) * a i := by
  induction l generalizing a with
  | nil =>
    have := hb i
    rw [List.foldl_nil]
    exact ⟨le_refl _, by linarith⟩
  | cons o rest ih =>
    rw [List.foldl_cons]
    simp only [List.countP_cons] at hcount
    by_cases hp : decide (o.ad_set_id = i) = true
    · rw [if_pos hp] at hcount
      have hrest0 : rest.countP (fun o => decide (o.ad_set_id = i)) = 0 := by omega
      have hid : o.ad_set_id = i := by simpa using hp
      rw [incFold_untouched rest pool W (inc_step pool W a o) i hrest0]
      exact inc_step_value_bounds pool W a o i hb
        (hcf o (List.mem_cons_self o rest)) hpool hid
    · rw [if_neg hp] at hcount
      have hun := inc_step_untouched pool W a o i (by simpa using hp)
      have hrec := ih (inc_step pool W a o) (by omega)
        (inc_step_nonneg pool W a o hb (hcf o (List.mem_cons_self o rest)) hpool)
        fun p hp2 => hcf p (List.mem_cons_of_mem o hp2)
      rw [hun] at hrec
      exact hrec

/-- C3 (amended): for opportunity lists of the shape
`_identify_optimization_opportunities` actually produces — nonnegative
confidences and suggested fractions, and each ad set targeted by at most one
decrease and at most one increase opportunity — the allocation computed by
`_calculate_optimal_allocation` changes no ad set's nonnegative budget by
more than 20% of its prior value in one cycle.  For fully arbitrary
opportunity sets the bound fails (`C3_counterexample`). -/
theorem C3_budget_change_bound (opps : List Opportunity) (alloc : ℕ → ℚ) (i : ℕ)
    (hb : ∀ j, 0 ≤ alloc j)
    (hf : ∀ o ∈ opps, 0 ≤ o.fraction)
    (hcf : ∀ o ∈ opps, 0 ≤ o.confidence)
    (hdec : opps.countP
      (fun o => decide (o.otype = OppType.decrease_budget ∧ o.ad_set_id = i)) ≤ 1)
    (hinc : opps.countP
      (fun o => decide (o.otype = OppType.increase_budget ∧ o.ad_set_id = i)) ≤ 1) :
    |calculate_optimal_allocation opps alloc i - alloc i| ≤
      max_budget_change_per_day * alloc i := by
  have hdecb := decFold_bounds opps (alloc, 0) i hdec hb hf
  have hnn := decFold_nonneg opps (alloc, 0) hb hf
  have hpool : (0 : ℚ) ≤ (opps.foldl dec_step (alloc, 0)).2 := decFold_pool opps (alloc, 0) hb hf
  have hda : apply_decreases opps alloc = opps.foldl dec_step (alloc, 0) := rfl
  unfold calculate_optimal_allocation apply_increases
  rw [hda]
  by_cases hgo : (opps.filter fun o => decide (o.otype = OppType.increase_budget)) ≠ [] ∧
      0 < (opps.foldl dec_step (alloc, 0)).2
  · rw [if_pos hgo]
    have hcnt : (opps.filter fun o => decide (o.otype = OppType.increase_budget)).countP
        (fun o => decide (o.ad_set_id = i)) ≤ 1 := by
      rw [List.countP_filter]
      refine le_trans (le_of_eq (List.countP_congr ?_)) hinc
      intro x hx
      simp only [Bool.and_eq_true, decide_eq_true_eq]
      exact and_comm
    have hcf2 : ∀ o ∈ (opps.filter fun o => decide (o.otype = OppType.increase_budget)),
        0 ≤ o.confidence * o.fraction := by
      intro o ho
      exact mul_nonneg (hcf o (List.mem_of_mem_filter ho)) (hf o (List.mem_of_mem_filter ho))
    have hincb := incFold_bounds
      (opps.filter fun o => decide (o.otype = OppType.increase_budget))
      (opps.foldl dec_step (alloc, 0)).2
      (((opps.filter fun o => decide (o.otype = OppType.increase_budget)).map
        fun o => o.confidence * o.fraction).sum)
      (opps.foldl dec_step (alloc, 0)).1 i hcnt hnn hcf2 hpool
    simp only [max_budget_change_per_day]
    rw [abs_le]
    obtain ⟨hd1, hd2⟩ := hdecb
    obtain ⟨hi1, hi2⟩ := hincb
    constructor
    · linarith
    · linarith
  · rw [if_neg hgo]
    simp only [max_budget_change_per_day]
    rw [abs_le]
    obtain ⟨hd1, hd2⟩ := hdecb
    constructor
    · linarith
    · linarith

/-- Witness for C3 at a concrete pipeline-shaped opportunity list: one
decrease on ad set 1 and one increase on ad set 2 over uniform budgets of
100. -/
theorem C3_budget_change_bound_witness :
    |calculate_optimal_allocation
        [{ otype := OppType.decrease_budget, ad_set_id := 1, current_budget := 100,
           confidence := 1, fraction := 3/10 },
         { otype := OppType.increase_budget, ad_set_id := 2, current_budget := 100,
           confidence := 1, fraction := 1/5 }]
        (fun _ => 100) 2 - 100| ≤ max_budget_change_per_day * 100 :=
  C3_budget_change_bound
    [{ otype := OppType.decrease_budget, ad_set_id := 1, current_budget := 100,
       confidence := 1, fraction := 3/10 },
     { otype := OppType.increase_budget, ad_set_id := 2, current_budget := 100,
       confidence := 1, fraction := 1/5 }]
    (fun _ => 100) 2
    (fun _ => by norm_num)
    (by
      intro o ho
      fin_cases ho <;> norm_num)
    (by
      intro o ho
      fin_cases ho <;> norm_num)
    (by decide)
    (by decide)

/-! ## Claim C7 (amended) -/

/-- C7 (amended): for an ad set with performance score 0.5 and spend
utilization 0.4 in a campaign with at least two scored ad sets (its id
unique among them), the opportunity loops generate exactly one decrease
opportunity for it — the underperformance rule fires and the
underutilization rule is excluded by the no-double-penalty membership test,
so never two.  But that single opportunity carries confidence 0.5, below the
0.70 acceptance threshold, so the list `_identify_optimization_opportunities`
actually returns contains no opportunity for this ad set at all — zero, not
the one the claim states (`C7_counterexample`). -/
theorem C7_no_double_penalty (ad_sets : List ScoredAdSet) (e : ScoredAdSet)
    (he : e ∈ ad_sets) (hlen : 2 ≤ ad_sets.length)
    (huniq : ad_sets.countP (fun a => decide (a.id = e.id)) = 1)
    (hscore : e.performance_score = 1/2)
    (hutil : e.spend_utilization = 2/5) :
    (raw_opportunities ad_sets).countP
      (fun o => decide (o.otype = OppType.decrease_budget ∧ o.ad_set_id = e.id)) = 1 ∧
    (identify_optimization_opportunities ad_sets).countP
      (fun o => decide (o.ad_set_id = e.id)) = 0 := by
  have hnot2 : ¬ ad_sets.length < 2 := by omega
  have hkey : ∀ a ∈ ad_sets, a.id = e.id → a = e := fun a ha hid =>
    eq_of_countP_eq_one huniq ha he (decide_eq_true hid) (decide_eq_true rfl)
  have helow : e ∈ low_performers ad_sets := by
    unfold low_performers
    exact List.mem_filter.mpr ⟨he, decide_eq_true (by rw [hscore]; norm_num)⟩
  have hraw : raw_opportunities ad_sets =
      increase_opps ad_sets ++ decrease_low_opps ad_sets ++ decrease_under_opps ad_sets := by
    unfold raw_opportunities
    rw [if_neg hnot2]
  have h1a : (increase_opps ad_sets).countP
      (fun o => decide (o.otype = OppType.decrease_budget ∧ o.ad_set_id = e.id)) = 0 := by
    unfold increase_opps
    rw [List.countP_map]
    apply List.countP_eq_zero.mpr
    intro a ha
    simp only [Function.comp_apply, decide_eq_true_eq]
    rintro ⟨h1, -⟩
    exact oppType_inc_ne_dec h1
  have h1b : (decrease_low_opps ad_sets).countP
      (fun o => decide (o.otype = OppType.decrease_budget ∧ o.ad_set_id = e.id)) = 1 := by
    unfold decrease_low_opps low_performers
    rw [List.countP_map, List.countP_filter, List.countP_filter]
    apply le_antisymm
    · refine le_trans (List.countP_mono_left ?_) (le_of_eq huniq)
      intro x hx hpx
      simp only [Function.comp_apply, Bool.and_eq_true, decide_eq_true_eq] at hpx
      exact decide_eq_true hpx.1.1.2
    · refine List.countP_pos_iff.mpr ⟨e, he, ?_⟩
      simp only [Function.comp_apply, Bool.and_eq_true, decide_eq_true_eq]
      refine ⟨⟨by simp, ?_⟩, ?_⟩
      · rw [hutil]
        norm_num
      · rw [hscore]
        norm_num
  have h1c : (decrease_under_opps ad_sets).countP
      (fun o => decide (o.otype = OppType.decrease_budget ∧ o.ad_set_id = e.id)) = 0 := by
    unfold decrease_under_opps
    rw [List.countP_map]
    apply List.countP_eq_zero.mpr
    intro a ha
    have hmem : a ∈ ad_sets := List.mem_of_mem_filter (List.mem_of_mem_filter ha)
    have hnotlow := List.of_mem_filter ha
    rw [Bool.not_eq_true'] at hnotlow
    simp only [Function.comp_apply, decide_eq_true_eq]
    rintro ⟨-, hid⟩
    have hae : a = e := hkey a hmem hid
    exact (of_decide_eq_false hnotlow) (hae ▸ helow)
  constructor
  · rw [hraw]
    simp only [List.countP_append, h1a, h1b, h1c]
  · unfold identify_optimization_opportunities
    rw [List.countP_filter]
    apply List.countP_eq_zero.mpr
    intro o ho
    simp only [Bool.and_eq_true, decide_eq_true_eq]
    rintro ⟨hid, hconf⟩
    rw [hraw] at ho
    rcases List.mem_append.mp ho with ho2 | hunder
    · rcases List.mem_append.mp ho2 with hinc | hlow
      · obtain ⟨a, ha, rfl⟩ := List.mem_map.mp hinc
        dsimp only at hid
        have hmem : a ∈ ad_sets := List.mem_of_mem_filter ha
        have hcond := List.of_mem_filter ha
        have hae : a = e := hkey a hmem hid
        rw [Bool.and_eq_true, decide_eq_true_eq, decide_eq_true_eq] at hcond
        rw [hae, hscore] at hcond
        norm_num at hcond
      · obtain ⟨a, ha, rfl⟩ := List.mem_map.mp hlow
        dsimp only at hconf hid
        have hmem : a ∈ ad_sets :=
          List.mem_of_mem_filter (List.mem_of_mem_filter ha)
        have hae : a = e := hkey a hmem hid
        rw [hae, hscore] at hconf
        rw [min_eq_left (by norm_num : (1 : ℚ) - 1/2 ≤ 1)] at hconf
        norm_num [confidence_threshold] at hconf
    · obtain ⟨a, ha, rfl⟩ := List.mem_map.mp hunder
      dsimp only at hid
      have hmem : a ∈ ad_sets :=
        List.mem_of_mem_filter (List.mem_of_mem_filter ha)
      have hnotlow := List.of_mem_filter ha
      rw [Bool.not_eq_true'] at hnotlow
      have hae : a = e := hkey a hmem hid
      exact (of_decide_eq_false hnotlow) (hae ▸ helow)

/-- Witness for C7 at the concrete two-ad-set campaign of the
counterexample: the raw loops produce exactly one decrease for the
underperforming-and-underutilized ad set. -/
theorem C7_no_double_penalty_witness :
    (raw_opportunities
        [{ id := 1, performance_score := 1/2, spend_utilization := 2/5,
           allocated_budget := 100 },
         { id := 2, performance_score := 1, spend_utilization := 9/10,
           allocated_budget := 100 }]).countP
      (fun o => decide (o.otype = OppType.decrease_budget ∧ o.ad_set_id =
        ({ id := 1, performance_score := 1/2, spend_utilization := 2/5,
           allocated_budget := 100 } : ScoredAdSet).id)) = 1 :=
  (C7_no_double_penalty
    [{ id := 1, performance_score := 1/2, spend_utilization := 2/5, allocated_budget := 100 },
     { id := 2, performance_score := 1, spend_utilization := 9/10, allocated_budget := 100 }]
    { id := 1, performance_score := 1/2, spend_utilization := 2/5, allocated_budget := 100 }
    (List.mem_cons_self _ _) (by decide) (by decide) rfl rfl).1

end Neuro
